import Mathlib

/-!
Verification of the Highway Racer game core.

This file gives a shallow embedding, in Lean 4, of the gameplay logic of the
Highway Racer browser game (game engine, game objects, particle system and
the collision utility), and proves or refutes the specification claims about
it.  Continuous quantities (positions, speeds, seconds, milliseconds) are
modelled as rationals; the score and the life counter are integers, matching
the integer-valued updates performed by the source.  Randomness
(Math.random draws) is modelled by explicit parameters: every random draw
consumed by an operation is an input of the corresponding Lean function.
DOM, audio and rendering calls have no game-state effect and are omitted.
-/

namespace HighwayRacer

/-- Axis-aligned rectangular body: the x, y, width, height fields shared by
every game object (utility.js checkCollision operates on these fields). -/
structure Rect where
  x : ℚ
  y : ℚ
  width : ℚ
  height : ℚ
  deriving DecidableEq

/-- AABB collision test, embedding checkCollision from utility.js: strict
inequalities on both axes. -/
def checkCollision (object1 object2 : Rect) : Prop :=
  object1.x < object2.x + object2.width ∧
  object1.x + object1.width > object2.x ∧
  object1.y < object2.y + object2.height ∧
  object1.y + object1.height > object2.y

instance checkCollisionDecidable (a b : Rect) : Decidable (checkCollision a b) := by
  unfold checkCollision
  infer_instance

/-- Containment of one rectangle in another, written with the same
inequalities the AABB test uses. -/
def rectContains (outer inner : Rect) : Prop :=
  outer.x ≤ inner.x ∧ outer.y ≤ inner.y ∧
  inner.x + inner.width ≤ outer.x + outer.width ∧
  inner.y + inner.height ≤ outer.y + outer.height

instance rectContainsDecidable (a b : Rect) : Decidable (rectContains a b) := by
  unfold rectContains
  infer_instance

/-- Collision with a contained rectangle implies collision with the
containing rectangle. -/
theorem checkCollision_mono (outer inner r : Rect) (h : rectContains outer inner)
    (hc : checkCollision r inner) : checkCollision r outer := by
  obtain ⟨h1, h2, h3, h4⟩ := h
  obtain ⟨c1, c2, c3, c4⟩ := hc
  refine ⟨lt_of_lt_of_le c1 h3, ?_, lt_of_lt_of_le c3 h4, ?_⟩
  · exact lt_of_le_of_lt h1 c2
  · exact lt_of_le_of_lt h2 c4

/-- C8: the AABB overlap test is symmetric, and rectangles sharing only an
edge do not collide, because the test is strict on both axes. -/
theorem checkCollision_symm_strict (a b : Rect) :
    (checkCollision a b ↔ checkCollision b a) ∧
    (a.x + a.width = b.x → ¬ checkCollision a b) := by
  constructor
  · unfold checkCollision
    constructor <;> rintro ⟨h1, h2, h3, h4⟩ <;> exact ⟨h2, h1, h4, h3⟩
  · rintro hedge ⟨_, h2, _, _⟩
    rw [hedge] at h2
    exact lt_irrefl _ h2

/-- Witness for C8 at concrete rectangles: a unit square at the origin and a
unit square immediately to its right share only an edge and do not collide,
and the test is symmetric there. -/
theorem checkCollision_symm_strict_witness :
    ((⟨0, 0, 1, 1⟩ : Rect).x + (⟨0, 0, 1, 1⟩ : Rect).width = (⟨1, 0, 1, 1⟩ : Rect).x) ∧
    ¬ checkCollision ⟨0, 0, 1, 1⟩ ⟨1, 0, 1, 1⟩ ∧
    (checkCollision (⟨0, 0, 1, 1⟩ : Rect) ⟨1, 0, 1, 1⟩ ↔
      checkCollision (⟨1, 0, 1, 1⟩ : Rect) ⟨0, 0, 1, 1⟩) := by
  refine ⟨by norm_num, ?_, (checkCollision_symm_strict _ _).1⟩
  exact (checkCollision_symm_strict _ _).2 (by norm_num)

/-!
Constants from constants.js.  The six difficulty-dependent fields of
GAME_CONFIG are mutable in the source (setDifficulty overwrites them), so
they form a structure carried in the engine state; the remaining fields are
never written and are plain definitions.
-/

/-- Mutable part of GAME_CONFIG: the fields overwritten by difficulty
presets. -/
structure GameConfig where
  BASE_GAME_SPEED : ℚ
  MAX_GAME_SPEED : ℚ
  SPEED_INCREASE_INTERVAL : ℚ
  POWER_UP_SPAWN_CHANCE : ℚ
  STARTING_LIVES : ℤ
  OBSTACLE_INTERVAL_DECREASE_RATE : ℚ
  deriving DecidableEq

/-- Initial GAME_CONFIG values (before any difficulty preset is applied). -/
def GAME_CONFIG : GameConfig :=
  { BASE_GAME_SPEED := 1
    MAX_GAME_SPEED := 7/2
    SPEED_INCREASE_INTERVAL := 15000
    POWER_UP_SPAWN_CHANCE := 35/100
    STARTING_LIVES := 3
    OBSTACLE_INTERVAL_DECREASE_RATE := 1/100000 }

def LANE_COUNT : ℕ := 3
def SPEED_INCREMENT : ℚ := 1/10
def BASE_OBSTACLE_INTERVAL : ℚ := 2000
def MIN_OBSTACLE_INTERVAL : ℚ := 500
def POWER_UP_DURATION : ℚ := 5000
def POWER_UP_MIN_SPAWN_INTERVAL : ℚ := 8000
def INVINCIBILITY_DURATION : ℚ := 2000
def PLAYER_WIDTH : ℚ := 40
def PLAYER_HEIGHT : ℚ := 70
def DIFFICULTY_INCREASE_RATE : ℚ := 1/10000
def SCORE_MULTIPLIER : ℚ := 10
def BASE_SPEED_FACTOR : ℚ := 150
def MAX_PARTICLES : ℕ := 100

/-- Difficulty preset names accepted by GameEngine.setDifficulty. -/
inductive Difficulty where
  | easy | medium | hard | extreme
  deriving DecidableEq

/-- DIFFICULTY_PRESETS from constants.js. -/
def DIFFICULTY_PRESETS : Difficulty → GameConfig
  | .easy =>
    { BASE_GAME_SPEED := 4/5, MAX_GAME_SPEED := 2, SPEED_INCREASE_INTERVAL := 25000,
      POWER_UP_SPAWN_CHANCE := 3/10, STARTING_LIVES := 5,
      OBSTACLE_INTERVAL_DECREASE_RATE := 5/1000000 }
  | .medium =>
    { BASE_GAME_SPEED := 1, MAX_GAME_SPEED := 3, SPEED_INCREASE_INTERVAL := 15000,
      POWER_UP_SPAWN_CHANCE := 25/100, STARTING_LIVES := 3,
      OBSTACLE_INTERVAL_DECREASE_RATE := 1/100000 }
  | .hard =>
    { BASE_GAME_SPEED := 6/5, MAX_GAME_SPEED := 7/2, SPEED_INCREASE_INTERVAL := 10000,
      POWER_UP_SPAWN_CHANCE := 2/10, STARTING_LIVES := 3,
      OBSTACLE_INTERVAL_DECREASE_RATE := 2/100000 }
  | .extreme =>
    { BASE_GAME_SPEED := 3/2, MAX_GAME_SPEED := 4, SPEED_INCREASE_INTERVAL := 8000,
      POWER_UP_SPAWN_CHANCE := 15/100, STARTING_LIVES := 2,
      OBSTACLE_INTERVAL_DECREASE_RATE := 3/100000 }

/-- Obstacle kinds of the OBSTACLE_TYPES catalog. -/
inductive OKind where
  | car | truck | debris
  deriving DecidableEq

/-- Hitbox adjustment record of an OBSTACLE_TYPES entry. -/
structure HitboxAdjustment where
  x : ℚ
  y : ℚ
  width : ℚ
  height : ℚ
  deriving DecidableEq

/-- Gameplay-relevant fields of an OBSTACLE_TYPES catalog entry (color and
sprite are presentation only and omitted). -/
structure ObstacleType where
  kind : OKind
  width : ℚ
  height : ℚ
  points : ℚ
  hitboxAdjustment : Option HitboxAdjustment
  deriving DecidableEq

/-- OBSTACLE_TYPES from constants.js. -/
def OBSTACLE_TYPES : List ObstacleType :=
  [ { kind := .car, width := 50, height := 80, points := 10,
      hitboxAdjustment := some ⟨0, 0, -5, -5⟩ },
    { kind := .truck, width := 70, height := 120, points := 20,
      hitboxAdjustment := some ⟨0, 0, -5, -5⟩ },
    { kind := .debris, width := 30, height := 30, points := 5,
      hitboxAdjustment := some ⟨0, 0, -2, -2⟩ } ]

/-- Power-up kinds of the POWER_UP_TYPES catalog. -/
inductive PKind where
  | shield | slowTime | extraLife | scoreBoost
  deriving DecidableEq

/-- Power-up effect names, as passed to Player.applyPowerUp and switched on
in GameEngine.applyPowerUp. -/
inductive Effect where
  | invincibility | slowMotion | addLife | doubleScore
  deriving DecidableEq

/-- Gameplay-relevant fields of a POWER_UP_TYPES catalog entry (extraLife
has no duration field in the source, modelled as none). -/
structure PowerUpType where
  kind : PKind
  duration : Option ℚ
  width : ℚ
  height : ℚ
  effect : Effect
  deriving DecidableEq

/-- POWER_UP_TYPES from constants.js, in source order (index order matters:
the null fallthrough in spawnPowerUp draws a uniform index into this
list). -/
def POWER_UP_TYPES : List PowerUpType :=
  [ { kind := .shield, duration := some 5000, width := 30, height := 30,
      effect := .invincibility },
    { kind := .slowTime, duration := some 5000, width := 30, height := 30,
      effect := .slowMotion },
    { kind := .extraLife, duration := none, width := 30, height := 30,
      effect := .addLife },
    { kind := .scoreBoost, duration := some 5000, width := 30, height := 30,
      effect := .doubleScore } ]

/-!
Obstacle (game-objects.js).  The constructor draw of a random catalog entry
and of the random relative speed are explicit parameters.  The hitbox field
is some rectangle when the catalog entry carries a hitboxAdjustment and
none when the obstacle aliases itself as its own hitbox.
-/

/-- Obstacle state (game-objects.js Obstacle). -/
structure Obstacle where
  x : ℚ
  y : ℚ
  width : ℚ
  height : ℚ
  lane : ℕ
  kind : OKind
  speed : ℚ
  points : ℚ
  hitbox : Option Rect
  markedForDeletion : Bool
  deriving DecidableEq

/-- Obstacle constructor: u in [0,1) is the Math.random draw for the
relative speed 1 + u/2; the catalog entry is the (possibly random) type. -/
def Obstacle.create (lane : ℕ) (laneWidth : ℚ) (obstacleType : ObstacleType) (u : ℚ) :
    Obstacle :=
  let x := (lane : ℚ) * laneWidth + (laneWidth - obstacleType.width) / 2
  let y := -obstacleType.height
  { x := x, y := y, width := obstacleType.width, height := obstacleType.height,
    lane := lane, kind := obstacleType.kind, speed := 1 + u / 2,
    points := obstacleType.points,
    hitbox := obstacleType.hitboxAdjustment.map fun adj =>
      ⟨x + adj.x, y + adj.y, obstacleType.width + adj.width,
       obstacleType.height + adj.height⟩,
    markedForDeletion := false }

/-- Obstacle.update: move down by speed × playerSpeed × BASE_SPEED_FACTOR ×
deltaTime × timeScale, re-anchor the hitbox, and flag for deletion once
below the game height. -/
def Obstacle.update (o : Obstacle) (deltaTime playerSpeed gameHeight timeScale : ℚ) :
    Obstacle :=
  let y := o.y + o.speed * playerSpeed * BASE_SPEED_FACTOR * deltaTime * timeScale
  { o with y := y,
           hitbox := o.hitbox.map fun h => { h with x := o.x, y := y },
           markedForDeletion := if y > gameHeight then true else o.markedForDeletion }

/-- Visual bounds of an obstacle. -/
def Obstacle.bounds (o : Obstacle) : Rect := ⟨o.x, o.y, o.width, o.height⟩

/-- Effective hitbox: the stored hitbox when present, else the obstacle
itself (the `obstacle.hitbox || obstacle` read in checkCollisions). -/
def Obstacle.effHitbox (o : Obstacle) : Rect := o.hitbox.getD o.bounds

/-- Repeated application of Obstacle.update with per-frame arguments
(deltaTime, playerSpeed, gameHeight, timeScale). -/
def applyObstacleUpdates : List (ℚ × ℚ × ℚ × ℚ) → Obstacle → Obstacle
  | [], o => o
  | u :: us, o => applyObstacleUpdates us (o.update u.1 u.2.1 u.2.2.1 u.2.2.2)

/-- Alignment invariant: the hitbox sits at the obstacle position with the
catalog adjustment applied to its size. -/
def hitboxAligned (o : Obstacle) (adj : HitboxAdjustment) : Prop :=
  o.hitbox = some ⟨o.x, o.y, o.width + adj.width, o.height + adj.height⟩

theorem create_hitboxAligned (lane : ℕ) (laneWidth u : ℚ) (obstacleType : ObstacleType)
    (adj : HitboxAdjustment) (hadj : obstacleType.hitboxAdjustment = some adj)
    (hx : adj.x = 0) (hy : adj.y = 0) :
    hitboxAligned (Obstacle.create lane laneWidth obstacleType u) adj := by
  show (Obstacle.create lane laneWidth obstacleType u).hitbox = _
  simp [Obstacle.create, hadj, hx, hy]

theorem update_hitboxAligned (o : Obstacle) (adj : HitboxAdjustment)
    (h : hitboxAligned o adj) (d pS gh ts : ℚ) :
    hitboxAligned (o.update d pS gh ts) adj := by
  have h2 : o.hitbox = some ⟨o.x, o.y, o.width + adj.width, o.height + adj.height⟩ := h
  show (o.update d pS gh ts).hitbox = _
  simp [Obstacle.update, h2]

theorem applyObstacleUpdates_hitboxAligned (us : List (ℚ × ℚ × ℚ × ℚ)) (o : Obstacle)
    (adj : HitboxAdjustment) (h : hitboxAligned o adj) :
    hitboxAligned (applyObstacleUpdates us o) adj := by
  induction us generalizing o with
  | nil => exact h
  | cons u us ih => exact ih _ (update_hitboxAligned o adj h _ _ _ _)

theorem hitboxAligned_contains (o : Obstacle) (adj : HitboxAdjustment)
    (h : hitboxAligned o adj) (hw : adj.width ≤ 0) (hh : adj.height ≤ 0) :
    rectContains o.bounds o.effHitbox := by
  have h2 : o.hitbox = some ⟨o.x, o.y, o.width + adj.width, o.height + adj.height⟩ := h
  simp only [Obstacle.effHitbox, h2, Option.getD_some, rectContains, Obstacle.bounds]
  refine ⟨le_refl _, le_refl _, ?_, ?_⟩ <;> linarith

/-- C10: for every catalog obstacle (zero hitbox offset, non-positive size
deltas), after construction and any sequence of updates, the collision
hitbox is contained in the visual bounds, so a hitbox collision implies a
visual-bounds collision. -/
theorem obstacle_hitbox_within_bounds (obstacleType : ObstacleType)
    (hmem : obstacleType ∈ OBSTACLE_TYPES) (lane : ℕ) (laneWidth u : ℚ)
    (updates : List (ℚ × ℚ × ℚ × ℚ)) (r : Rect) :
    rectContains (applyObstacleUpdates updates
        (Obstacle.create lane laneWidth obstacleType u)).bounds
      (applyObstacleUpdates updates
        (Obstacle.create lane laneWidth obstacleType u)).effHitbox ∧
    (checkCollision r (applyObstacleUpdates updates
        (Obstacle.create lane laneWidth obstacleType u)).effHitbox →
      checkCollision r (applyObstacleUpdates updates
        (Obstacle.create lane laneWidth obstacleType u)).bounds) := by
  have main : ∀ adj : HitboxAdjustment, obstacleType.hitboxAdjustment = some adj →
      adj.x = 0 → adj.y = 0 → adj.width ≤ 0 → adj.height ≤ 0 →
      rectContains (applyObstacleUpdates updates
          (Obstacle.create lane laneWidth obstacleType u)).bounds
        (applyObstacleUpdates updates
          (Obstacle.create lane laneWidth obstacleType u)).effHitbox := by
    intro adj hadj hx hy hw hh
    exact hitboxAligned_contains _ adj
      (applyObstacleUpdates_hitboxAligned _ _ adj
        (create_hitboxAligned lane laneWidth u obstacleType adj hadj hx hy)) hw hh
  have hcontains : rectContains (applyObstacleUpdates updates
      (Obstacle.create lane laneWidth obstacleType u)).bounds
    (applyObstacleUpdates updates
      (Obstacle.create lane laneWidth obstacleType u)).effHitbox := by
    simp only [OBSTACLE_TYPES, List.mem_cons, List.not_mem_nil, or_false] at hmem
    rcases hmem with h | h | h <;> subst h <;>
      exact main _ rfl rfl rfl (by norm_num) (by norm_num)
  exact ⟨hcontains, fun hc => checkCollision_mono _ _ _ hcontains hc⟩

/-- Witness for C10: the car catalog entry, one concrete update, and a
rectangle overlapping the shrunk hitbox also overlaps the visual bounds. -/
theorem obstacle_hitbox_within_bounds_witness :
    (⟨.car, 50, 80, 10, some ⟨0, 0, -5, -5⟩⟩ : ObstacleType) ∈ OBSTACLE_TYPES ∧
    checkCollision ⟨30, -70, 10, 10⟩ (applyObstacleUpdates [(1/60, 1, 600, 1)]
      (Obstacle.create 0 100 ⟨.car, 50, 80, 10, some ⟨0, 0, -5, -5⟩⟩ 0)).effHitbox ∧
    checkCollision ⟨30, -70, 10, 10⟩ (applyObstacleUpdates [(1/60, 1, 600, 1)]
      (Obstacle.create 0 100 ⟨.car, 50, 80, 10, some ⟨0, 0, -5, -5⟩⟩ 0)).bounds := by
  refine ⟨by simp [OBSTACLE_TYPES], ?_, ?_⟩
  · norm_num [applyObstacleUpdates, Obstacle.create, Obstacle.update, Obstacle.effHitbox,
      checkCollision, BASE_SPEED_FACTOR]
  · exact (obstacle_hitbox_within_bounds _ (by simp [OBSTACLE_TYPES]) 0 100 0
      [(1/60, 1, 600, 1)] ⟨30, -70, 10, 10⟩).2
      (by norm_num [applyObstacleUpdates, Obstacle.create, Obstacle.update,
        Obstacle.effHitbox, checkCollision, BASE_SPEED_FACTOR])

/-!
Particle system (particles.js).  The state is the list of live particles in
creation order (push appends at the tail, shift evicts at the head).  The
random draws that populate a freshly created particle are resolved by the
caller: emit receives the list of particles the loop would create.
-/

/-- Particle record (particles.js emit). -/
structure Particle where
  x : ℚ
  y : ℚ
  vx : ℚ
  vy : ℚ
  size : ℚ
  color : String
  lifetime : ℚ
  age : ℚ
  gravity : ℚ
  deriving DecidableEq

/-- One iteration of the creation loop in ParticleSystem.emit: evict the
oldest particle when at the cap, then push the new one. -/
def emitStep (particles : List Particle) (p : Particle) : List Particle :=
  let particles := if MAX_PARTICLES ≤ particles.length then particles.tail else particles
  particles ++ [p]

/-- ParticleSystem.emit: inactive emitters emit nothing; otherwise run the
creation loop once per new particle. -/
def particlesEmit (active : Bool) (news : List Particle) (particles : List Particle) :
    List Particle :=
  if active then news.foldl emitStep particles else particles

/-- Per-frame particle step: gravity into vy first, then integrate position
with the updated vy, then age by delta × 1000. -/
def stepParticle (delta : ℚ) (p : Particle) : Particle :=
  let vy := p.vy + p.gravity * delta
  { p with vy := vy, x := p.x + p.vx * delta, y := p.y + vy * delta,
           age := p.age + delta * 1000 }

/-- ParticleSystem.update on the particle list: step every particle, then
remove those whose age reached their lifetime. -/
def particlesUpdate (delta : ℚ) (particles : List Particle) : List Particle :=
  (particles.map (stepParticle delta)).filter fun p => decide (p.age < p.lifetime)

/-- Operations on the particle list observable from the rest of the game. -/
inductive POp where
  | emit (active : Bool) (news : List Particle)
  | update (delta : ℚ)
  | clear

/-- Apply one particle-system operation. -/
def applyPOp (particles : List Particle) : POp → List Particle
  | .emit active news => particlesEmit active news particles
  | .update delta => particlesUpdate delta particles
  | .clear => []

/-- Run a sequence of particle-system operations from the empty initial
state of the constructor. -/
def runPOps (ops : List POp) : List Particle := ops.foldl applyPOp []

theorem emitStep_length_le (particles : List Particle) (p : Particle)
    (h : particles.length ≤ MAX_PARTICLES) :
    (emitStep particles p).length ≤ MAX_PARTICLES := by
  unfold emitStep
  simp only [MAX_PARTICLES] at h ⊢
  split <;>
    simp only [List.length_append, List.length_tail, List.length_singleton] <;> omega

theorem foldl_emitStep_length_le (news particles : List Particle)
    (h : particles.length ≤ MAX_PARTICLES) :
    (news.foldl emitStep particles).length ≤ MAX_PARTICLES := by
  induction news generalizing particles with
  | nil => exact h
  | cons q news ih => exact ih _ (emitStep_length_le particles q h)

theorem applyPOp_length_le (particles : List Particle) (op : POp)
    (h : particles.length ≤ MAX_PARTICLES) :
    (applyPOp particles op).length ≤ MAX_PARTICLES := by
  cases op with
  | emit active news =>
    simp only [applyPOp, particlesEmit]
    split
    · exact foldl_emitStep_length_le news particles h
    · exact h
  | update delta =>
    simp only [applyPOp, particlesUpdate]
    exact le_trans (List.length_filter_le _ _) (by simpa using h)
  | clear => simp [applyPOp]

theorem runPOps_aux_length_le (ops : List POp) (particles : List Particle)
    (h : particles.length ≤ MAX_PARTICLES) :
    (ops.foldl applyPOp particles).length ≤ MAX_PARTICLES := by
  induction ops generalizing particles with
  | nil => exact h
  | cons op ops ih => exact ih _ (applyPOp_length_le particles op h)

/-- C7: after any sequence of emit, update and clear operations the live
particle count never exceeds MAX_PARTICLES, and an emission performed at
the cap evicts exactly the oldest particle (the list head, FIFO) per newly
created particle. -/
theorem particle_cap_fifo (ops : List POp) (particles : List Particle) (p : Particle)
    (hcap : particles.length = MAX_PARTICLES) :
    (runPOps ops).length ≤ MAX_PARTICLES ∧
    emitStep particles p = particles.tail ++ [p] := by
  constructor
  · exact runPOps_aux_length_le ops [] (by simp)
  · unfold emitStep
    rw [if_pos (le_of_eq hcap.symm)]

/-- Witness for C7: a concrete run (one emit of three particles into the
empty system) stays under the cap, and a concrete 100-particle list at the
cap evicts its head on emission. -/
theorem particle_cap_fifo_witness :
    (List.replicate 100 (⟨0, 0, 0, 0, 2, "#ffffff", 500, 0, 0⟩ : Particle)).length =
      MAX_PARTICLES ∧
    ((runPOps [POp.emit true
        (List.replicate 3 (⟨0, 0, 0, 0, 2, "#ffffff", 500, 0, 0⟩ : Particle))]).length ≤
      MAX_PARTICLES ∧
     emitStep (List.replicate 100 (⟨0, 0, 0, 0, 2, "#ffffff", 500, 0, 0⟩ : Particle))
        ⟨0, 0, 0, 0, 2, "#ffffff", 500, 0, 0⟩ =
      (List.replicate 100 (⟨0, 0, 0, 0, 2, "#ffffff", 500, 0, 0⟩ : Particle)).tail ++
        [⟨0, 0, 0, 0, 2, "#ffffff", 500, 0, 0⟩]) := by
  refine ⟨by simp [MAX_PARTICLES], particle_cap_fifo _ _ _ (by simp [MAX_PARTICLES])⟩

/-!
Power-up type selection (GameEngine.spawnPowerUp).  The function below is
the branch structure of the source over the single Math.random draw
`rand`: lives is the player life count, trackingActive the truthiness of
`this.timeSinceLastPowerUp && this.timeSinceLastPowerUpType`, and
timeSinceShield / timeSinceHeart the per-type timers read inside that
branch.  A `none` result is the null fallthrough, which the PowerUp
constructor resolves by drawing a uniform random index into
POWER_UP_TYPES.
-/

/-- Branching of GameEngine.spawnPowerUp over the uniform draw rand,
returning the forced power-up type or none for the null fallthrough. -/
def selectPowerUpType (lives : ℤ) (trackingActive : Bool)
    (timeSinceShield timeSinceHeart rand : ℚ) : Option PKind :=
  if lives = 1 then
    if rand < 6/10 then some .extraLife
    else if rand < 9/10 then some .shield
    else none
  else if trackingActive then
    if timeSinceShield > 30000 ∧ timeSinceHeart > 30000 then
      if rand < 45/100 then some .shield
      else if rand < 9/10 then some .extraLife
      else none
    else if timeSinceShield > 30000 then
      if rand < 6/10 then some .shield
      else if rand < 8/10 then some .extraLife
      else none
    else if timeSinceHeart > 30000 then
      if rand < 6/10 then some .extraLife
      else if rand < 8/10 then some .shield
      else none
    else
      if rand < 35/100 then some .shield
      else if rand < 7/10 then some .extraLife
      else none
  else
    if rand < 4/10 then some .shield
    else if rand < 8/10 then some .extraLife
    else none

/-- Resolution performed by the PowerUp constructor: a forced type is
looked up in POWER_UP_TYPES (the lookup always succeeds for catalog
kinds), and the null fallthrough draws a uniform index j into the
four-entry catalog. -/
def resolvePowerUpKind (forced : Option PKind) (j : Fin 4) : PKind :=
  match forced with
  | some k => k
  | none => (POWER_UP_TYPES.get (Fin.cast (by rfl) j)).kind

/-- Number of outcomes, among the 400 equiprobable pairs of a percent
bucket r < 100 for the rand draw and a uniform catalog index j < 4, in
which the spawned power-up has kind k.  All rand thresholds in the source
are whole hundredths, so the 100 percent buckets model the uniform draw
exactly. -/
def spawnTypeCount (lives : ℤ) (trackingActive : Bool)
    (timeSinceShield timeSinceHeart : ℚ) (k : PKind) : ℕ :=
  ((List.range 100).map fun (r : ℕ) =>
    ((List.finRange 4).filter fun j =>
      decide (resolvePowerUpKind
        (selectPowerUpType lives trackingActive timeSinceShield timeSinceHeart
          ((r : ℚ) / 100)) j = k)).length).sum

/-- Mirror of selectPowerUpType with the three non-rand guards already
decided and the rand draw replaced by its percent bucket, used to make the
counts kernel-computable. -/
def selectPowerUpTypeN (oneLife trackingActive sStale hStale : Bool) (r : ℕ) :
    Option PKind :=
  if oneLife then
    if r < 60 then some .extraLife
    else if r < 90 then some .shield
    else none
  else if trackingActive then
    if sStale && hStale then
      if r < 45 then some .shield
      else if r < 90 then some .extraLife
      else none
    else if sStale then
      if r < 60 then some .shield
      else if r < 80 then some .extraLife
      else none
    else if hStale then
      if r < 60 then some .extraLife
      else if r < 80 then some .shield
      else none
    else
      if r < 35 then some .shield
      else if r < 70 then some .extraLife
      else none
  else
    if r < 40 then some .shield
    else if r < 80 then some .extraLife
    else none

/-- Counting mirror of spawnTypeCount over the decided guards. -/
def spawnTypeCountN (oneLife trackingActive sStale hStale : Bool) (k : PKind) : ℕ :=
  ((List.range 100).map fun r =>
    ((List.finRange 4).filter fun j =>
      decide (resolvePowerUpKind (selectPowerUpTypeN oneLife trackingActive sStale hStale r)
        j = k)).length).sum

theorem pct_lt_iff (r c : ℕ) (a : ℚ) (h : a * 100 = (c : ℚ)) :
    ((r : ℚ) / 100 < a) ↔ r < c := by
  rw [div_lt_iff₀ (by norm_num : (0:ℚ) < 100), h, Nat.cast_lt]

theorem selectPowerUpType_eq_selectPowerUpTypeN (lives : ℤ) (trackingActive : Bool)
    (tS tH : ℚ) (r : ℕ) :
    selectPowerUpType lives trackingActive tS tH ((r : ℚ) / 100) =
      selectPowerUpTypeN (decide (lives = 1)) trackingActive
        (decide (tS > 30000)) (decide (tH > 30000)) r := by
  have q60 : ∀ n : ℕ, (((n : ℚ) / 100 < 6/10) ↔ n < 60) :=
    fun n => pct_lt_iff n 60 (6/10) (by norm_num)
  have q90 : ∀ n : ℕ, (((n : ℚ) / 100 < 9/10) ↔ n < 90) :=
    fun n => pct_lt_iff n 90 (9/10) (by norm_num)
  have q45 : ∀ n : ℕ, (((n : ℚ) / 100 < 45/100) ↔ n < 45) :=
    fun n => pct_lt_iff n 45 (45/100) (by norm_num)
  have q80 : ∀ n : ℕ, (((n : ℚ) / 100 < 8/10) ↔ n < 80) :=
    fun n => pct_lt_iff n 80 (8/10) (by norm_num)
  have q35 : ∀ n : ℕ, (((n : ℚ) / 100 < 35/100) ↔ n < 35) :=
    fun n => pct_lt_iff n 35 (35/100) (by norm_num)
  have q70 : ∀ n : ℕ, (((n : ℚ) / 100 < 7/10) ↔ n < 70) :=
    fun n => pct_lt_iff n 70 (7/10) (by norm_num)
  have q40 : ∀ n : ℕ, (((n : ℚ) / 100 < 4/10) ↔ n < 40) :=
    fun n => pct_lt_iff n 40 (4/10) (by norm_num)
  unfold selectPowerUpType selectPowerUpTypeN
  by_cases h1 : lives = 1 <;> by_cases hs : tS > 30000 <;> by_cases hh : tH > 30000 <;>
    cases trackingActive <;>
      simp [h1, hs, hh, q60, q90, q45, q80, q35, q70, q40]

theorem spawnTypeCount_eq_spawnTypeCountN (lives : ℤ) (trackingActive : Bool)
    (tS tH : ℚ) (k : PKind) :
    spawnTypeCount lives trackingActive tS tH k =
      spawnTypeCountN (decide (lives = 1)) trackingActive
        (decide (tS > 30000)) (decide (tH > 30000)) k := by
  unfold spawnTypeCount spawnTypeCountN
  refine congrArg _ (List.map_congr_left fun r _ => ?_)
  refine congrArg _ (List.filter_congr fun j _ => ?_)
  rw [selectPowerUpType_eq_selectPowerUpTypeN]

/-- C2 counterexample: the claim gives extraLife exactly 60 percent of
spawns when the player has exactly 1 life, i.e. 240 of the 400
equiprobable (percent bucket, catalog index) outcomes; the code produces
250 of 400 (62.5 percent), because the residual null fallthrough draws
uniformly among all four catalog types, extraLife and shield included,
instead of only among the remaining types. -/
theorem spawnPowerUp_distribution_counterexample :
    spawnTypeCount 1 false 0 0 PKind.extraLife = 250 ∧
    spawnTypeCount 1 false 0 0 PKind.extraLife ≠ 60 * 400 / 100 := by
  have f0 : decide ((0:ℚ) > 30000) = false := decide_eq_false (by norm_num)
  have e1 : decide ((1:ℤ) = 1) = true := by decide
  rw [spawnTypeCount_eq_spawnTypeCountN, f0, e1]
  exact ⟨by decide, by decide⟩

/-- C2 amended: in every branch the rand thresholds for the named types
match the spec percentages, but the residual mass goes to the null
fallthrough, which draws uniformly among all four catalog types.  Out of
the 400 equiprobable (percent bucket, catalog index) outcomes the spawned
kind is therefore distributed as follows.  Exactly 1 life: extraLife 250,
shield 130, slowTime 10, scoreBoost 10 (62.5 / 32.5 / 2.5 / 2.5 percent).
Tracking active and both shield and extraLife stale for more than 30s:
190 / 190 / 10 / 10.  Only shield stale: shield 260, extraLife 100,
others 20 each.  Only extraLife stale: extraLife 260, shield 100, others
20 each.  Tracking active, neither stale: 170 / 170 / 30 / 30.  Tracking
inactive (first-ever spawn): 180 / 180 / 20 / 20. -/
theorem spawnPowerUp_distribution_amended :
    (spawnTypeCount 1 true 40000 40000 PKind.extraLife = 250 ∧
     spawnTypeCount 1 true 40000 40000 PKind.shield = 130 ∧
     spawnTypeCount 1 true 40000 40000 PKind.slowTime = 10 ∧
     spawnTypeCount 1 true 40000 40000 PKind.scoreBoost = 10) ∧
    (spawnTypeCount 3 true 30001 30001 PKind.shield = 190 ∧
     spawnTypeCount 3 true 30001 30001 PKind.extraLife = 190 ∧
     spawnTypeCount 3 true 30001 30001 PKind.slowTime = 10 ∧
     spawnTypeCount 3 true 30001 30001 PKind.scoreBoost = 10) ∧
    (spawnTypeCount 3 true 30001 0 PKind.shield = 260 ∧
     spawnTypeCount 3 true 30001 0 PKind.extraLife = 100 ∧
     spawnTypeCount 3 true 30001 0 PKind.slowTime = 20 ∧
     spawnTypeCount 3 true 30001 0 PKind.scoreBoost = 20) ∧
    (spawnTypeCount 3 true 0 30001 PKind.extraLife = 260 ∧
     spawnTypeCount 3 true 0 30001 PKind.shield = 100 ∧
     spawnTypeCount 3 true 0 30001 PKind.slowTime = 20 ∧
     spawnTypeCount 3 true 0 30001 PKind.scoreBoost = 20) ∧
    (spawnTypeCount 3 true 0 0 PKind.shield = 170 ∧
     spawnTypeCount 3 true 0 0 PKind.extraLife = 170 ∧
     spawnTypeCount 3 true 0 0 PKind.slowTime = 30 ∧
     spawnTypeCount 3 true 0 0 PKind.scoreBoost = 30) ∧
    (spawnTypeCount 3 false 0 0 PKind.shield = 180 ∧
     spawnTypeCount 3 false 0 0 PKind.extraLife = 180 ∧
     spawnTypeCount 3 false 0 0 PKind.slowTime = 20 ∧
     spawnTypeCount 3 false 0 0 PKind.scoreBoost = 20) := by
  have t40 : decide ((40000:ℚ) > 30000) = true := decide_eq_true (by norm_num)
  have t30 : decide ((30001:ℚ) > 30000) = true := decide_eq_true (by norm_num)
  have f0 : decide ((0:ℚ) > 30000) = false := decide_eq_false (by norm_num)
  have e1 : decide ((1:ℤ) = 1) = true := by decide
  have e3 : decide ((3:ℤ) = 1) = false := by decide
  simp only [spawnTypeCount_eq_spawnTypeCountN, t40, t30, f0, e1, e3]
  exact ⟨⟨by decide, by decide, by decide, by decide⟩,
         ⟨by decide, by decide, by decide, by decide⟩,
         ⟨by decide, by decide, by decide, by decide⟩,
         ⟨by decide, by decide, by decide, by decide⟩,
         ⟨by decide, by decide, by decide, by decide⟩,
         by decide, by decide, by decide, by decide⟩

/-!
Player (game-objects.js).  Cosmetic-only state that feeds back into logic
(blink visibility) is kept; purely presentational drawing state is not.
-/

/-- Player state. -/
structure Player where
  x : ℚ
  y : ℚ
  width : ℚ
  height : ℚ
  laneWidth : ℚ
  gameHeight : ℚ
  lane : ℕ
  targetLane : ℕ
  laneChangeSpeed : ℚ
  speed : ℚ
  isAccelerating : Bool
  lives : ℤ
  invincible : Bool
  invincibleTime : ℚ
  hasShield : Bool
  power : Option Effect
  powerUpTime : ℚ
  blinkInterval : ℚ
  lastBlinkTime : ℚ
  visible : Bool

/-- Player constructor.  The cfg argument is the current (possibly
preset-overwritten) GAME_CONFIG. -/
def Player.init (laneWidth gameHeight : ℚ) (cfg : GameConfig) : Player :=
  { x := laneWidth + (laneWidth - PLAYER_WIDTH) / 2
    y := gameHeight - PLAYER_HEIGHT - 20
    width := PLAYER_WIDTH, height := PLAYER_HEIGHT
    laneWidth := laneWidth, gameHeight := gameHeight
    lane := 1, targetLane := 1, laneChangeSpeed := 10
    speed := cfg.BASE_GAME_SPEED, isAccelerating := false
    lives := cfg.STARTING_LIVES
    invincible := false, invincibleTime := 0
    hasShield := false, power := none, powerUpTime := 0
    blinkInterval := 200, lastBlinkTime := 0, visible := true }

/-- Rectangular body of the player, as read by checkCollision. -/
def Player.rect (p : Player) : Rect := ⟨p.x, p.y, p.width, p.height⟩

def Player.moveLeft (p : Player) : Player :=
  if p.targetLane > 0 then { p with targetLane := p.targetLane - 1 } else p

def Player.moveRight (p : Player) : Player :=
  if p.targetLane < LANE_COUNT - 1 then { p with targetLane := p.targetLane + 1 } else p

def Player.setSpeed (p : Player) (newSpeed : ℚ) : Player := { p with speed := newSpeed }

def Player.accelerate (p : Player) (cfg : GameConfig) : Player :=
  { p with isAccelerating := true, speed := min (p.speed * (3/2)) cfg.MAX_GAME_SPEED }

def Player.decelerate (p : Player) (cfg : GameConfig) : Player :=
  { p with isAccelerating := false, speed := cfg.BASE_GAME_SPEED }

/-- Player.applyPowerUp.  The source signature has a default duration of
5000 ms; callers here always pass the duration explicitly. -/
def Player.applyPowerUp (p : Player) (powerType : Effect) (duration : ℚ) : Player :=
  let p := { p with power := some powerType, powerUpTime := duration }
  match powerType with
  | .invincibility => { p with invincible := true, hasShield := true }
  | .slowMotion => p
  | .addLife => { p with lives := min (p.lives + 1) 5 }
  | .doubleScore => p

/-- Player.takeDamage: returns the updated player and whether the player
died. -/
def Player.takeDamage (p : Player) : Player × Bool :=
  if p.invincible then (p, false)
  else
    let p := { p with lives := p.lives - 1 }
    if p.lives ≤ 0 then (p, true)
    else ({ p with invincible := true, invincibleTime := INVINCIBILITY_DURATION }, false)

/-- Lane-transition part of Player.update. -/
def Player.updateLanePos (p : Player) (deltaTime : ℚ) : Player :=
  let targetX := p.laneWidth * (p.targetLane : ℚ) + (p.laneWidth - p.width) / 2
  let dx := targetX - p.x
  if |dx| > 1/10 then { p with x := p.x + dx * p.laneChangeSpeed * deltaTime }
  else { p with x := targetX, lane := p.targetLane }

/-- Invincibility-timer and blink part of Player.update (skipped while an
invincibility power-up is the active power). -/
def Player.updateInvincibility (p : Player) (deltaTime : ℚ) : Player :=
  if p.invincible then
    if p.power ≠ some Effect.invincibility then
      let it := p.invincibleTime - deltaTime * 1000
      if it ≤ 0 then { p with invincibleTime := it, invincible := false, visible := true }
      else
        let lb := p.lastBlinkTime + deltaTime * 1000
        if lb ≥ p.blinkInterval then
          { p with invincibleTime := it, visible := !p.visible, lastBlinkTime := 0 }
        else { p with invincibleTime := it, lastBlinkTime := lb }
    else p
  else p

/-- Power-up countdown part of Player.update: on expiry the invincibility
effect flags are cleared, slowMotion and doubleScore clear nothing here
(they are handled in game logic), and the power slot empties. -/
def Player.updatePowerTimer (p : Player) (deltaTime : ℚ) : Player :=
  match p.power with
  | none => p
  | some eff =>
    let put := p.powerUpTime - deltaTime * 1000
    if put ≤ 0 then
      let p2 :=
        match eff with
        | Effect.invincibility => { p with invincible := false, hasShield := false }
        | _ => p
      { p2 with powerUpTime := put, power := none, visible := true }
    else { p with powerUpTime := put }

/-- Player.update: the three sequential blocks of the source. -/
def Player.update (p : Player) (deltaTime : ℚ) : Player :=
  ((p.updateLanePos deltaTime).updateInvincibility deltaTime).updatePowerTimer deltaTime

/-!
PowerUp object (game-objects.js).  The purely cosmetic animation state
(pulse, spin, glow, trail flags) does not feed back into gameplay and is
omitted; the width/height enlargement for shield and extraLife does affect
collision and is kept.
-/

/-- Power-up object state. -/
structure PowerUp where
  x : ℚ
  y : ℚ
  width : ℚ
  height : ℚ
  lane : ℕ
  kind : PKind
  effect : Effect
  duration : ℚ
  markedForDeletion : Bool
  deriving DecidableEq

/-- PowerUp constructor: resolve the (possibly null) type override exactly
as the source does — find the catalog entry, falling back to the uniform
random index j — then build the object, enlarging shield and extraLife by
5 pixels after the position was computed from the catalog size. -/
def PowerUp.create (lane : ℕ) (laneWidth : ℚ) (typeOverride : Option PKind) (j : Fin 4) :
    PowerUp :=
  let powerUpType :=
    match typeOverride with
    | some k =>
      match POWER_UP_TYPES.find? (fun (t : PowerUpType) => t.kind == k) with
      | some t => t
      | none => POWER_UP_TYPES.get (Fin.cast (by rfl) j)
    | none => POWER_UP_TYPES.get (Fin.cast (by rfl) j)
  let x := (lane : ℚ) * laneWidth + (laneWidth - powerUpType.width) / 2
  let y := -powerUpType.height
  let base : PowerUp :=
    { x := x, y := y, width := powerUpType.width, height := powerUpType.height,
      lane := lane, kind := powerUpType.kind, effect := powerUpType.effect,
      duration := powerUpType.duration.getD 0, markedForDeletion := false }
  if powerUpType.kind = .shield ∨ powerUpType.kind = .extraLife then
    { base with width := base.width + 5, height := base.height + 5 }
  else base

/-- PowerUp.update: move down by playerSpeed × BASE_SPEED_FACTOR × the
time-scaled delta and flag for deletion once below the game height. -/
def PowerUp.update (pu : PowerUp) (deltaTime playerSpeed gameHeight timeScale : ℚ) :
    PowerUp :=
  let scaledDelta := deltaTime * timeScale
  let y := pu.y + playerSpeed * BASE_SPEED_FACTOR * scaledDelta
  { pu with y := y,
            markedForDeletion := if y > gameHeight then true else pu.markedForDeletion }

/-- Rectangular body of a power-up. -/
def PowerUp.rect (pu : PowerUp) : Rect := ⟨pu.x, pu.y, pu.width, pu.height⟩

/-!
Game engine (game-engine.js).  The engine state carries the mutable
GAME_CONFIG, and a pending-timeout queue modelling the host setTimeout
callbacks scheduled by applyPowerUp.  The particle system shares no state
with the rest of the engine and is modelled separately above.  The JS
player field is null until the first startGame; it is modelled as a
default-constructed player, which no claim observes before a run starts.
-/

/-- Game states (GAME_STATES in constants.js). -/
inductive Mode where
  | menu | playing | paused | gameOver
  deriving DecidableEq

/-- Deferred mutation scheduled by a setTimeout in applyPowerUp. -/
inductive TAction where
  | resetTimeScale | resetScoreMultiplier
  deriving DecidableEq

/-- Pending setTimeout callback: remaining wall-clock milliseconds and the
mutation it performs when it fires. -/
structure Timeout where
  remaining : ℚ
  action : TAction
  deriving DecidableEq

/-- Random draws consumed by one frame: lane and type indices and rolls
for obstacle and power-up spawning, plus the Date.now() reading used by
the spawnPowerUp bookkeeping. -/
structure FrameEnv where
  obstacleLaneRand : ℕ
  obstacleTypeRand : ℕ
  obstacleSpeedRand : ℚ
  powerUpRoll : ℚ
  powerUpLaneRand : ℕ
  powerUpTypeRand : ℚ
  powerUpResolveRand : ℕ
  wallNow : ℚ

/-- Engine state (GameEngine fields that carry gameplay state).  The field
timeSinceLastPowerUp is read in the spawnPowerUp guard but never assigned
anywhere in the source, so it stays none forever. -/
structure Engine where
  cfg : GameConfig
  state : Mode
  score : ℤ
  previousScore : ℤ
  highScore : ℤ
  gameTime : ℚ
  lastObstacleTime : ℚ
  lastSpeedIncreaseTime : ℚ
  lastPowerUpTime : ℚ
  timeScale : ℚ
  scoreMultiplier : ℚ
  distance : ℚ
  gameSpeed : ℚ
  roadOffset : ℚ
  difficulty : ℚ
  player : Player
  obstacles : List Obstacle
  powerUps : List PowerUp
  canvasWidth : ℚ
  canvasHeight : ℚ
  pendingTimeouts : List Timeout
  timeSinceLastPowerUp : Option ℚ
  timeSinceLastPowerUpType : Option (PKind → ℚ)
  lastPowerUpTypeTime : Option ℚ

/-- Engine constructor state. -/
def initEngine (canvasWidth canvasHeight : ℚ) (highScore : ℤ) : Engine :=
  { cfg := GAME_CONFIG, state := .menu, score := 0, previousScore := 0,
    highScore := highScore, gameTime := 0, lastObstacleTime := 0,
    lastSpeedIncreaseTime := 0, lastPowerUpTime := 0, timeScale := 1,
    scoreMultiplier := 1, distance := 0, gameSpeed := 1, roadOffset := 0,
    difficulty := 1,
    player := Player.init (canvasWidth / (LANE_COUNT : ℚ)) canvasHeight GAME_CONFIG,
    obstacles := [], powerUps := [], canvasWidth := canvasWidth,
    canvasHeight := canvasHeight, pendingTimeouts := [],
    timeSinceLastPowerUp := none, timeSinceLastPowerUpType := none,
    lastPowerUpTypeTime := none }

/-- GameEngine.getObstacleSpawnInterval. -/
def getObstacleSpawnInterval (e : Engine) : ℚ :=
  max MIN_OBSTACLE_INTERVAL
    (BASE_OBSTACLE_INTERVAL - (e.score : ℚ) * e.cfg.OBSTACLE_INTERVAL_DECREASE_RATE)

/-- GameEngine.getPowerUpSpawnInterval. -/
def getPowerUpSpawnInterval (e : Engine) : ℚ :=
  max POWER_UP_MIN_SPAWN_INTERVAL (getObstacleSpawnInterval e * 3)

/-- Lanes without an obstacle within 150 px of the top, shared by obstacle
and power-up spawning. -/
def safeLanesFor (obstacles : List Obstacle) : List ℕ :=
  let recent := (obstacles.filter fun o => decide (o.y < 150)).map Obstacle.lane
  (List.range LANE_COUNT).filter fun l => !(recent.contains l)

/-- GameEngine.spawnObstacle: choose a uniform safe lane (or any lane when
none is safe), a uniform catalog entry and a random relative speed, and
append the obstacle. -/
def spawnObstacleE (e : Engine) (env : FrameEnv) : Engine :=
  let laneWidth := e.canvasWidth / (LANE_COUNT : ℚ)
  let safeLanes := safeLanesFor e.obstacles
  let lane :=
    if safeLanes.length > 0 then safeLanes.getD (env.obstacleLaneRand % safeLanes.length) 0
    else env.obstacleLaneRand % LANE_COUNT
  let obstacleType :=
    OBSTACLE_TYPES.get ⟨env.obstacleTypeRand % 3, Nat.mod_lt _ (by norm_num)⟩
  { e with obstacles :=
      e.obstacles ++ [Obstacle.create lane laneWidth obstacleType env.obstacleSpeedRand] }

/-- JS truthiness of the optional numeric field timeSinceLastPowerUp
(undefined and 0 are falsy). -/
def jsTruthyNum : Option ℚ → Bool
  | none => false
  | some v => !(decide (v = 0))

/-- GameEngine.spawnPowerUp: when no lane is safe, only push the next
attempt closer (the caller then overwrites lastPowerUpTime anyway);
otherwise select a type over the rand draw, build the power-up, and update
the per-type timers keyed on the forced override (so a null fallthrough
resets no timer, exactly as the source comparison with null does). -/
def spawnPowerUpE (e : Engine) (env : FrameEnv) : Engine :=
  let laneWidth := e.canvasWidth / (LANE_COUNT : ℚ)
  let safeLanes := safeLanesFor e.obstacles
  if safeLanes.length = 0 then
    { e with lastPowerUpTime := e.gameTime - getPowerUpSpawnInterval e + 1000 }
  else
    let lane := safeLanes.getD (env.powerUpLaneRand % safeLanes.length) 0
    let trackingActive :=
      jsTruthyNum e.timeSinceLastPowerUp && e.timeSinceLastPowerUpType.isSome
    let timers : PKind → ℚ :=
      fun t => match e.timeSinceLastPowerUpType with | some f => f t | none => 0
    let forced := selectPowerUpType e.player.lives trackingActive
      (timers .shield) (timers .extraLife) env.powerUpTypeRand
    let j : Fin 4 := ⟨env.powerUpResolveRand % 4, Nat.mod_lt _ (by norm_num)⟩
    let currentTime := env.wallNow
    let newTimers : PKind → ℚ := fun t =>
      if forced = some t then 0
      else timers t + (currentTime - e.lastPowerUpTypeTime.getD currentTime)
    { e with powerUps := e.powerUps ++ [PowerUp.create lane laneWidth forced j],
             timeSinceLastPowerUpType := some newTimers,
             lastPowerUpTypeTime := some currentTime }

/-- Descending splice loop of GameEngine.updateObstacles as a structural
recursion: update each obstacle, drop the ones flagged for deletion, and
sum the points they award; element updates are independent and integer
addition commutes, so the recursion agrees with the descending index
loop. -/
def obstaclesLoop (delta playerSpeed gameHeight timeScale scoreMultiplier : ℚ) :
    List Obstacle → List Obstacle × ℤ
  | [] => ([], 0)
  | o :: rest =>
    let o := o.update delta playerSpeed gameHeight timeScale
    let r := obstaclesLoop delta playerSpeed gameHeight timeScale scoreMultiplier rest
    if o.markedForDeletion then (r.1, r.2 + ⌊o.points * playerSpeed * scoreMultiplier⌋)
    else (o :: r.1, r.2)

/-- GameEngine.updateObstacles. -/
def updateObstaclesE (e : Engine) (delta : ℚ) : Engine :=
  let r := obstaclesLoop delta e.player.speed e.canvasHeight e.timeScale
    e.scoreMultiplier e.obstacles
  { e with obstacles := r.1, score := e.score + r.2 }

/-- GameEngine.updatePowerUps: move every power-up, then drop the ones
flagged for deletion (trail-particle flagging is presentation only). -/
def updatePowerUpsE (e : Engine) (delta : ℚ) : Engine :=
  { e with powerUps :=
      ((e.powerUps.map fun pu =>
        pu.update delta e.player.speed e.canvasHeight e.timeScale).filter
          (fun pu => !pu.markedForDeletion)) }

/-- Descending scan of the obstacle collision loop: the source iterates
from the last index down and breaks at the first hit, so the rightmost
colliding obstacle is removed; none means no collision. -/
def scanObstacles (p : Player) : List Obstacle → Option (List Obstacle)
  | [] => none
  | o :: rest =>
    match scanObstacles p rest with
    | some rest => some (o :: rest)
    | none => if checkCollision p.rect o.effHitbox then some rest else none

/-- Descending scan of the power-up collision loop: returns the rightmost
colliding power-up and the list without it. -/
def scanPowerUps (p : Player) : List PowerUp → Option (PowerUp × List PowerUp)
  | [] => none
  | pu :: rest =>
    match scanPowerUps p rest with
    | some r => some (r.1, pu :: r.2)
    | none => if checkCollision p.rect pu.rect then some (pu, rest) else none

/-- GameEngine.applyPowerUp: slowMotion and doubleScore mutate the engine
immediately and schedule their reversion as a setTimeout of the power-up
duration (pushed on the pending-timeout queue); addLife uses the default
5000 ms duration of Player.applyPowerUp. -/
def applyPowerUpE (e : Engine) (pu : PowerUp) : Engine :=
  match pu.effect with
  | .invincibility =>
    { e with player := e.player.applyPowerUp .invincibility pu.duration }
  | .slowMotion =>
    { e with timeScale := 1/2,
             pendingTimeouts := ⟨pu.duration, .resetTimeScale⟩ :: e.pendingTimeouts,
             player := e.player.applyPowerUp .slowMotion pu.duration }
  | .addLife =>
    { e with player := e.player.applyPowerUp .addLife 5000 }
  | .doubleScore =>
    { e with scoreMultiplier := 2,
             pendingTimeouts := ⟨pu.duration, .resetScoreMultiplier⟩ :: e.pendingTimeouts,
             player := e.player.applyPowerUp .doubleScore pu.duration }

/-- Obstacle half of GameEngine.checkCollisions: on the first (rightmost)
hit, apply damage, transition to game over on death (setState GAME_OVER
runs endGame, which updates the high score), and remove the obstacle. -/
def obstacleCollisionPhase (e : Engine) : Engine :=
  match scanObstacles e.player e.obstacles with
  | none => e
  | some obstacles =>
    let r := e.player.takeDamage
    if r.2 then
      { e with obstacles := obstacles, player := r.1, state := .gameOver,
               highScore := if e.score > e.highScore then e.score else e.highScore }
    else { e with obstacles := obstacles, player := r.1 }

/-- Power-up half of GameEngine.checkCollisions: on the first (rightmost)
hit against the raw player body, apply the effect and remove the
power-up. -/
def powerUpCollisionPhase (e : Engine) : Engine :=
  match scanPowerUps e.player e.powerUps with
  | none => e
  | some r => applyPowerUpE { e with powerUps := r.2 } r.1

/-- GameEngine.checkCollisions: skipped entirely while invincible; at most
one obstacle collision is processed, then at most one power-up pickup. -/
def checkCollisionsE (e : Engine) : Engine :=
  if e.player.invincible then e
  else powerUpCollisionPhase (obstacleCollisionPhase e)

/-- Per-frame stages of GameEngine.update, in source order. -/
def playerStage (e : Engine) (delta : ℚ) : Engine :=
  { e with player := e.player.update delta }

/-- Road-scroll stage: note the time scale multiplies the already scaled
delta a second time. -/
def roadStage (e : Engine) (delta : ℚ) : Engine :=
  let ro := e.roadOffset + e.player.speed * 200 * delta * e.timeScale
  { e with roadOffset := if ro ≥ e.canvasHeight then ro - e.canvasHeight else ro }

/-- Obstacle spawn stage of GameEngine.update. -/
def obstacleSpawnStage (e : Engine) (env : FrameEnv) : Engine :=
  if e.gameTime - e.lastObstacleTime > getObstacleSpawnInterval e then
    { spawnObstacleE e env with lastObstacleTime := e.gameTime }
  else e

/-- Power-up spawn stage of GameEngine.update: the timer resets whether or
not the spawn-chance roll succeeds, and after spawnPowerUpE ran (so its
no-safe-lane deferral of lastPowerUpTime is immediately overwritten). -/
def powerUpSpawnStage (e : Engine) (env : FrameEnv) : Engine :=
  if e.gameTime - e.lastPowerUpTime > getPowerUpSpawnInterval e then
    let e2 := if env.powerUpRoll < e.cfg.POWER_UP_SPAWN_CHANCE then spawnPowerUpE e env else e
    { e2 with lastPowerUpTime := e2.gameTime }
  else e

/-- GameEngine.increaseDifficulty. -/
def increaseDifficultyE (e : Engine) : Engine :=
  let e := { e with difficulty := e.difficulty + DIFFICULTY_INCREASE_RATE }
  if e.player.speed < e.cfg.MAX_GAME_SPEED then
    let newSpeed := min (e.player.speed + SPEED_INCREMENT) e.cfg.MAX_GAME_SPEED
    { e with player := e.player.setSpeed newSpeed }
  else e

/-- Difficulty escalation stage of GameEngine.update. -/
def difficultyStage (e : Engine) : Engine :=
  if e.gameTime - e.lastSpeedIncreaseTime > e.cfg.SPEED_INCREASE_INTERVAL then
    { increaseDifficultyE e with lastSpeedIncreaseTime := e.gameTime }
  else e

/-- Score accrual, milestone bookkeeping and speed-display sync at the end
of GameEngine.update. -/
def scoreStage (e : Engine) (delta : ℚ) : Engine :=
  let speedFactor := e.player.speed * e.scoreMultiplier
  let e := { e with score := e.score + ⌊delta * speedFactor * SCORE_MULTIPLIER⌋ }
  let e := { e with previousScore := e.score }
  if ⌊e.player.speed * 10⌋ ≠ ⌊e.gameSpeed * 10⌋ then { e with gameSpeed := e.player.speed }
  else e

/-- GameEngine.update: clamp the incoming delta to 0.1 s, then run the
stages in source order (the particle update shares no engine state and is
modelled separately). -/
def update (e : Engine) (deltaTime : ℚ) (env : FrameEnv) : Engine :=
  let delta := min deltaTime (1/10)
  scoreStage
    (difficultyStage
      (powerUpSpawnStage
        (obstacleSpawnStage
          (checkCollisionsE
            (updatePowerUpsE
              (updateObstaclesE
                (roadStage (playerStage e delta) delta) delta) delta)) env) env)) delta

/-- GameEngine.gameLoop: no-op unless playing; the frame delta is the
wall-clock gap to the previous timestamp (in seconds), or the nominal
0.016 s when gameTime is not yet positive; the delta is multiplied by the
time scale before being handed to update. -/
def gameLoop (e : Engine) (timestamp : ℚ) (env : FrameEnv) : Engine :=
  if e.state = Mode.playing then
    let deltaTime := if e.gameTime > 0 then (timestamp - e.gameTime) / 1000 else 16/1000
    let e := { e with gameTime := timestamp }
    update e (deltaTime * e.timeScale) env
  else e

/-- GameEngine.startGame (reached through setState PLAYING): reset the
run-level state, rebuild the player, and run the first frame synchronously
as gameLoop(0).  Pending timeouts and the power-up type timers are not
reset by the source. -/
def startGameE (e : Engine) (env : FrameEnv) : Engine :=
  gameLoop
    { e with state := .playing, score := 0, previousScore := 0, gameTime := 0,
             lastObstacleTime := 0, lastSpeedIncreaseTime := 0, lastPowerUpTime := 0,
             timeScale := 1, scoreMultiplier := 1, distance := 0,
             gameSpeed := e.cfg.BASE_GAME_SPEED, roadOffset := 0, difficulty := 1,
             obstacles := [], powerUps := [],
             player := Player.init (e.canvasWidth / (LANE_COUNT : ℚ)) e.canvasHeight e.cfg }
    0 env

/-- GameEngine.pauseGame (reached through setState PAUSED): the loop stops;
no pending timeout is cancelled. -/
def pauseGameE (e : Engine) : Engine := { e with state := .paused }

/-- GameEngine.resumeGame: set the state back to playing and call
gameLoop(0) without resetting gameTime. -/
def resumeGameE (e : Engine) (env : FrameEnv) : Engine :=
  gameLoop { e with state := .playing } 0 env

/-- GameEngine.setDifficulty: overwrite the mutable GAME_CONFIG fields
from the preset and reset the player lives and speed. -/
def setDifficultyE (e : Engine) (d : Difficulty) : Engine :=
  let preset := DIFFICULTY_PRESETS d
  { e with cfg := preset,
           player := { e.player with lives := preset.STARTING_LIVES,
                                     speed := preset.BASE_GAME_SPEED } }

/-- Movement commands accepted by GameEngine.handleInput. -/
inductive InputCmd where
  | left | right | accelerate | decelerate

/-- GameEngine.handleInput: ignored unless playing. -/
def handleInputE (e : Engine) (cmd : InputCmd) : Engine :=
  if e.state = Mode.playing then
    match cmd with
    | .left => { e with player := e.player.moveLeft }
    | .right => { e with player := e.player.moveRight }
    | .accelerate => { e with player := e.player.accelerate e.cfg }
    | .decelerate => { e with player := e.player.decelerate e.cfg }
  else e

/-- Firing of one deferred setTimeout callback from applyPowerUp. -/
def fireTAction : TAction → Engine → Engine
  | .resetTimeScale, e => { e with timeScale := 1 }
  | .resetScoreMultiplier, e => { e with scoreMultiplier := 1 }

/-- Host timer queue: advancing the wall clock by dt fires every pending
callback whose delay elapsed — the JS event loop runs timers whether the
game is playing, paused or over. -/
def advanceWall (e : Engine) (dt : ℚ) : Engine :=
  let due := e.pendingTimeouts.filter fun t => decide (t.remaining ≤ dt)
  let rest := (e.pendingTimeouts.filter fun t => !(decide (t.remaining ≤ dt))).map
    fun t => { t with remaining := t.remaining - dt }
  due.foldl (fun acc t => fireTAction t.action acc) { e with pendingTimeouts := rest }

/-- Externally triggerable operations, with the state guards enforced by
the input layer (pause only fires while playing, resume only while
paused; the start and restart buttons call setState PLAYING from any
screen). -/
inductive Step where
  | start (env : FrameEnv)
  | pause
  | resume (env : FrameEnv)
  | frame (timestamp : ℚ) (env : FrameEnv)
  | input (cmd : InputCmd)
  | setDifficulty (d : Difficulty)
  | wall (dt : ℚ)

/-- Apply one external operation to the engine. -/
def Engine.stepFn (e : Engine) : Step → Engine
  | .start env => startGameE e env
  | .pause => if e.state = Mode.playing then pauseGameE e else e
  | .resume env => if e.state = Mode.paused then resumeGameE e env else e
  | .frame timestamp env => gameLoop e timestamp env
  | .input cmd => handleInputE e cmd
  | .setDifficulty d => setDifficultyE e d
  | .wall dt => advanceWall e dt

/-- Engine states reachable from the constructor by external operations. -/
inductive Reachable : Engine → Prop where
  | init (canvasWidth canvasHeight : ℚ) (highScore : ℤ) :
      Reachable (initEngine canvasWidth canvasHeight highScore)
  | step {e : Engine} (h : Reachable e) (s : Step) : Reachable (e.stepFn s)

/-!
Field-preservation lemmas for the per-frame player update and
characterizations of damage and power-up application, used by the engine
invariants.
-/

theorem Player.updateLanePos_lives (p : Player) (d : ℚ) :
    (p.updateLanePos d).lives = p.lives := by
  unfold Player.updateLanePos
  dsimp only
  split <;> rfl

theorem Player.updateInvincibility_lives (p : Player) (d : ℚ) :
    (p.updateInvincibility d).lives = p.lives := by
  unfold Player.updateInvincibility
  dsimp only
  repeat' split <;> try rfl

theorem Player.updatePowerTimer_lives (p : Player) (d : ℚ) :
    (p.updatePowerTimer d).lives = p.lives := by
  unfold Player.updatePowerTimer
  dsimp only
  repeat' split <;> try rfl

theorem Player.update_lives (p : Player) (d : ℚ) :
    (p.update d).lives = p.lives := by
  unfold Player.update
  rw [Player.updatePowerTimer_lives, Player.updateInvincibility_lives,
    Player.updateLanePos_lives]

theorem Player.updateLanePos_speed (p : Player) (d : ℚ) :
    (p.updateLanePos d).speed = p.speed := by
  unfold Player.updateLanePos
  dsimp only
  split <;> rfl

theorem Player.updateInvincibility_speed (p : Player) (d : ℚ) :
    (p.updateInvincibility d).speed = p.speed := by
  unfold Player.updateInvincibility
  dsimp only
  repeat' split <;> try rfl

theorem Player.updatePowerTimer_speed (p : Player) (d : ℚ) :
    (p.updatePowerTimer d).speed = p.speed := by
  unfold Player.updatePowerTimer
  dsimp only
  repeat' split <;> try rfl

theorem Player.update_speed (p : Player) (d : ℚ) :
    (p.update d).speed = p.speed := by
  unfold Player.update
  rw [Player.updatePowerTimer_speed, Player.updateInvincibility_speed,
    Player.updateLanePos_speed]

theorem Player.takeDamage_invincible (p : Player) (h : p.invincible = true) :
    p.takeDamage = (p, false) := by
  unfold Player.takeDamage
  rw [if_pos h]

theorem Player.takeDamage_spec (p : Player) (h : p.invincible = false) :
    p.takeDamage.1.lives = p.lives - 1 ∧ (p.takeDamage.2 = true ↔ p.lives ≤ 1) := by
  unfold Player.takeDamage
  rw [if_neg (by simp [h])]
  dsimp only
  split <;> rename_i hc <;> simp <;> omega

theorem Player.applyPowerUp_lives (p : Player) (t : Effect) (d : ℚ)
    (h5 : p.lives ≤ 5) :
    p.lives ≤ (p.applyPowerUp t d).lives ∧ (p.applyPowerUp t d).lives ≤ 5 := by
  unfold Player.applyPowerUp
  cases t <;> dsimp only <;> omega

/-!
Stage-preservation lemmas: which engine fields each per-frame stage leaves
untouched.
-/

theorem playerStage_state (e : Engine) (d : ℚ) : (playerStage e d).state = e.state := rfl

theorem playerStage_lives (e : Engine) (d : ℚ) :
    (playerStage e d).player.lives = e.player.lives := Player.update_lives _ _

theorem playerStage_scoreMultiplier (e : Engine) (d : ℚ) :
    (playerStage e d).scoreMultiplier = e.scoreMultiplier := rfl

theorem roadStage_player (e : Engine) (d : ℚ) : (roadStage e d).player = e.player := rfl

theorem roadStage_state (e : Engine) (d : ℚ) : (roadStage e d).state = e.state := rfl

theorem roadStage_scoreMultiplier (e : Engine) (d : ℚ) :
    (roadStage e d).scoreMultiplier = e.scoreMultiplier := rfl

theorem updateObstaclesE_player (e : Engine) (d : ℚ) :
    (updateObstaclesE e d).player = e.player := rfl

theorem updateObstaclesE_state (e : Engine) (d : ℚ) :
    (updateObstaclesE e d).state = e.state := rfl

theorem updateObstaclesE_scoreMultiplier (e : Engine) (d : ℚ) :
    (updateObstaclesE e d).scoreMultiplier = e.scoreMultiplier := rfl

theorem updatePowerUpsE_player (e : Engine) (d : ℚ) :
    (updatePowerUpsE e d).player = e.player := rfl

theorem updatePowerUpsE_state (e : Engine) (d : ℚ) :
    (updatePowerUpsE e d).state = e.state := rfl

theorem updatePowerUpsE_scoreMultiplier (e : Engine) (d : ℚ) :
    (updatePowerUpsE e d).scoreMultiplier = e.scoreMultiplier := rfl

theorem updatePowerUpsE_score (e : Engine) (d : ℚ) :
    (updatePowerUpsE e d).score = e.score := rfl

theorem obstacleSpawnStage_player (e : Engine) (env : FrameEnv) :
    (obstacleSpawnStage e env).player = e.player := by
  unfold obstacleSpawnStage
  split <;> rfl

theorem obstacleSpawnStage_state (e : Engine) (env : FrameEnv) :
    (obstacleSpawnStage e env).state = e.state := by
  unfold obstacleSpawnStage
  split <;> rfl

theorem obstacleSpawnStage_scoreMultiplier (e : Engine) (env : FrameEnv) :
    (obstacleSpawnStage e env).scoreMultiplier = e.scoreMultiplier := by
  unfold obstacleSpawnStage
  split <;> rfl

theorem obstacleSpawnStage_score (e : Engine) (env : FrameEnv) :
    (obstacleSpawnStage e env).score = e.score := by
  unfold obstacleSpawnStage
  split <;> rfl

theorem spawnPowerUpE_player (e : Engine) (env : FrameEnv) :
    (spawnPowerUpE e env).player = e.player := by
  unfold spawnPowerUpE
  dsimp only
  split <;> rfl

theorem spawnPowerUpE_state (e : Engine) (env : FrameEnv) :
    (spawnPowerUpE e env).state = e.state := by
  unfold spawnPowerUpE
  dsimp only
  split <;> rfl

theorem spawnPowerUpE_scoreMultiplier (e : Engine) (env : FrameEnv) :
    (spawnPowerUpE e env).scoreMultiplier = e.scoreMultiplier := by
  unfold spawnPowerUpE
  dsimp only
  split <;> rfl

theorem spawnPowerUpE_score (e : Engine) (env : FrameEnv) :
    (spawnPowerUpE e env).score = e.score := by
  unfold spawnPowerUpE
  dsimp only
  split <;> rfl

theorem spawnPowerUpE_gameTime (e : Engine) (env : FrameEnv) :
    (spawnPowerUpE e env).gameTime = e.gameTime := by
  unfold spawnPowerUpE
  dsimp only
  split <;> rfl

theorem powerUpSpawnStage_player (e : Engine) (env : FrameEnv) :
    (powerUpSpawnStage e env).player = e.player := by
  unfold powerUpSpawnStage
  dsimp only
  split
  · split <;> first | rw [spawnPowerUpE_player] | rfl
  · rfl

theorem powerUpSpawnStage_state (e : Engine) (env : FrameEnv) :
    (powerUpSpawnStage e env).state = e.state := by
  unfold powerUpSpawnStage
  dsimp only
  split
  · split <;> first | rw [spawnPowerUpE_state] | rfl
  · rfl

theorem powerUpSpawnStage_scoreMultiplier (e : Engine) (env : FrameEnv) :
    (powerUpSpawnStage e env).scoreMultiplier = e.scoreMultiplier := by
  unfold powerUpSpawnStage
  dsimp only
  split
  · split <;> first | rw [spawnPowerUpE_scoreMultiplier] | rfl
  · rfl

theorem powerUpSpawnStage_score (e : Engine) (env : FrameEnv) :
    (powerUpSpawnStage e env).score = e.score := by
  unfold powerUpSpawnStage
  dsimp only
  split
  · split <;> first | rw [spawnPowerUpE_score] | rfl
  · rfl

theorem increaseDifficultyE_lives (e : Engine) :
    (increaseDifficultyE e).player.lives = e.player.lives := by
  unfold increaseDifficultyE
  dsimp only
  split <;> rfl

theorem increaseDifficultyE_state (e : Engine) :
    (increaseDifficultyE e).state = e.state := by
  unfold increaseDifficultyE
  dsimp only
  split <;> rfl

theorem increaseDifficultyE_scoreMultiplier (e : Engine) :
    (increaseDifficultyE e).scoreMultiplier = e.scoreMultiplier := by
  unfold increaseDifficultyE
  dsimp only
  split <;> rfl

theorem increaseDifficultyE_score (e : Engine) :
    (increaseDifficultyE e).score = e.score := by
  unfold increaseDifficultyE
  dsimp only
  split <;> rfl

theorem difficultyStage_lives (e : Engine) :
    (difficultyStage e).player.lives = e.player.lives := by
  unfold difficultyStage
  split
  · exact increaseDifficultyE_lives e
  · rfl

theorem difficultyStage_state (e : Engine) :
    (difficultyStage e).state = e.state := by
  unfold difficultyStage
  split
  · exact increaseDifficultyE_state e
  · rfl

theorem difficultyStage_scoreMultiplier (e : Engine) :
    (difficultyStage e).scoreMultiplier = e.scoreMultiplier := by
  unfold difficultyStage
  split
  · exact increaseDifficultyE_scoreMultiplier e
  · rfl

theorem difficultyStage_score (e : Engine) :
    (difficultyStage e).score = e.score := by
  unfold difficultyStage
  split
  · exact increaseDifficultyE_score e
  · rfl

theorem scoreStage_player (e : Engine) (d : ℚ) :
    (scoreStage e d).player = e.player := by
  unfold scoreStage
  dsimp only
  split <;> rfl

theorem scoreStage_state (e : Engine) (d : ℚ) :
    (scoreStage e d).state = e.state := by
  unfold scoreStage
  dsimp only
  split <;> rfl

theorem scoreStage_scoreMultiplier (e : Engine) (d : ℚ) :
    (scoreStage e d).scoreMultiplier = e.scoreMultiplier := by
  unfold scoreStage
  dsimp only
  split <;> rfl

theorem scoreStage_score (e : Engine) (d : ℚ) :
    (scoreStage e d).score =
      e.score + ⌊d * (e.player.speed * e.scoreMultiplier) * SCORE_MULTIPLIER⌋ := by
  unfold scoreStage
  dsimp only
  split <;> rfl

/-!
Collision-resolution lemmas: how damage, death and power-up pickup move
the life counter, the state and the score.
-/

theorem applyPowerUpE_state (e : Engine) (pu : PowerUp) :
    (applyPowerUpE e pu).state = e.state := by
  unfold applyPowerUpE
  split <;> rfl

theorem applyPowerUpE_score (e : Engine) (pu : PowerUp) :
    (applyPowerUpE e pu).score = e.score := by
  unfold applyPowerUpE
  split <;> rfl

theorem applyPowerUpE_lives (e : Engine) (pu : PowerUp) (h5 : e.player.lives ≤ 5) :
    e.player.lives ≤ (applyPowerUpE e pu).player.lives ∧
    (applyPowerUpE e pu).player.lives ≤ 5 := by
  unfold applyPowerUpE
  split <;> exact Player.applyPowerUp_lives _ _ _ h5

theorem applyPowerUpE_scoreMultiplier (e : Engine) (pu : PowerUp) :
    (applyPowerUpE e pu).scoreMultiplier = e.scoreMultiplier ∨
    (applyPowerUpE e pu).scoreMultiplier = 2 := by
  unfold applyPowerUpE
  split <;> first | exact Or.inl rfl | exact Or.inr rfl

theorem obstacleCollisionPhase_spec (e : Engine) (hp : e.state = Mode.playing)
    (hinv : e.player.invincible = false) (h1 : 1 ≤ e.player.lives) :
    ((obstacleCollisionPhase e).player.lives = e.player.lives ∨
      (obstacleCollisionPhase e).player.lives = e.player.lives - 1) ∧
    ((obstacleCollisionPhase e).state = e.state ∨
      ((obstacleCollisionPhase e).state = Mode.gameOver ∧ e.player.lives = 1 ∧
        (obstacleCollisionPhase e).player.lives = 0)) ∧
    ((obstacleCollisionPhase e).state = e.state → 1 ≤ (obstacleCollisionPhase e).player.lives) ∧
    (obstacleCollisionPhase e).score = e.score ∧
    (obstacleCollisionPhase e).scoreMultiplier = e.scoreMultiplier := by
  obtain ⟨hd1, hd2⟩ := Player.takeDamage_spec e.player hinv
  unfold obstacleCollisionPhase
  split
  · exact ⟨Or.inl rfl, Or.inl rfl, fun _ => h1, rfl, rfl⟩
  · dsimp only
    split
    · rename_i hdied
      have hle : e.player.lives ≤ 1 := hd2.mp hdied
      have hl1 : e.player.lives = 1 := le_antisymm hle h1
      have hz : e.player.takeDamage.1.lives = 0 := by rw [hd1, hl1]; norm_num
      refine ⟨Or.inr hd1, Or.inr ⟨rfl, hl1, hz⟩, ?_, rfl, rfl⟩
      intro hst
      rw [hp] at hst
      exact absurd hst (by simp)
    · rename_i hndied
      have hgt : ¬ e.player.lives ≤ 1 := fun hc => hndied (hd2.mpr hc)
      have hge : 1 ≤ e.player.takeDamage.1.lives := by rw [hd1]; omega
      exact ⟨Or.inr hd1, Or.inl rfl, fun _ => hge, rfl, rfl⟩

theorem powerUpCollisionPhase_state (e : Engine) :
    (powerUpCollisionPhase e).state = e.state := by
  unfold powerUpCollisionPhase
  split
  · rfl
  · exact applyPowerUpE_state _ _

theorem powerUpCollisionPhase_score (e : Engine) :
    (powerUpCollisionPhase e).score = e.score := by
  unfold powerUpCollisionPhase
  split
  · rfl
  · exact applyPowerUpE_score _ _

theorem powerUpCollisionPhase_lives (e : Engine) (h5 : e.player.lives ≤ 5) :
    e.player.lives ≤ (powerUpCollisionPhase e).player.lives ∧
    (powerUpCollisionPhase e).player.lives ≤ 5 := by
  unfold powerUpCollisionPhase
  split
  · exact ⟨le_refl _, h5⟩
  · exact applyPowerUpE_lives _ _ h5

theorem powerUpCollisionPhase_scoreMultiplier (e : Engine) :
    (powerUpCollisionPhase e).scoreMultiplier = e.scoreMultiplier ∨
    (powerUpCollisionPhase e).scoreMultiplier = 2 := by
  unfold powerUpCollisionPhase
  split
  · exact Or.inl rfl
  · exact applyPowerUpE_scoreMultiplier _ _

theorem checkCollisionsE_spec (e : Engine) (hp : e.state = Mode.playing)
    (h1 : 1 ≤ e.player.lives) (h5 : e.player.lives ≤ 5) :
    (0 ≤ (checkCollisionsE e).player.lives ∧ (checkCollisionsE e).player.lives ≤ 5) ∧
    ((checkCollisionsE e).state = e.state ∨
      ((checkCollisionsE e).state = Mode.gameOver ∧ e.player.lives = 1)) ∧
    ((checkCollisionsE e).state = e.state → 1 ≤ (checkCollisionsE e).player.lives) ∧
    (checkCollisionsE e).score = e.score := by
  unfold checkCollisionsE
  split
  · exact ⟨⟨by omega, h5⟩, Or.inl rfl, fun _ => h1, rfl⟩
  · rename_i hinvn
    have hinv : e.player.invincible = false := by
      revert hinvn
      cases e.player.invincible <;> simp
    obtain ⟨hAl, hAs, hAs1, hAsc, _⟩ := obstacleCollisionPhase_spec e hp hinv h1
    have hA5 : (obstacleCollisionPhase e).player.lives ≤ 5 := by
      rcases hAl with h | h <;> omega
    obtain ⟨hBl, hB5⟩ := powerUpCollisionPhase_lives (obstacleCollisionPhase e) hA5
    have hBs := powerUpCollisionPhase_state (obstacleCollisionPhase e)
    have hBsc := powerUpCollisionPhase_score (obstacleCollisionPhase e)
    refine ⟨⟨?_, hB5⟩, ?_, ?_, by rw [hBsc, hAsc]⟩
    · rcases hAs with h | h
      · have := hAs1 h
        omega
      · have := h.2.2
        omega
    · rcases hAs with h | h
      · exact Or.inl (hBs.trans h)
      · exact Or.inr ⟨hBs.trans h.1, h.2.1⟩
    · intro hst
      rcases hAs with h | h
      · have := hAs1 h
        omega
      · exfalso
        have hgo : Mode.gameOver = e.state := h.1.symm.trans (hBs.symm.trans hst)
        rw [hp] at hgo
        exact absurd hgo (by simp)

/-!
Config preservation: the mutable GAME_CONFIG is only written by
setDifficulty, never by the frame pipeline.
-/

theorem applyPowerUpE_cfg (e : Engine) (pu : PowerUp) :
    (applyPowerUpE e pu).cfg = e.cfg := by
  unfold applyPowerUpE
  split <;> rfl

theorem obstacleCollisionPhase_cfg (e : Engine) :
    (obstacleCollisionPhase e).cfg = e.cfg := by
  unfold obstacleCollisionPhase
  split
  · rfl
  · dsimp only
    split <;> rfl

theorem powerUpCollisionPhase_cfg (e : Engine) :
    (powerUpCollisionPhase e).cfg = e.cfg := by
  unfold powerUpCollisionPhase
  split
  · rfl
  · exact applyPowerUpE_cfg _ _

theorem checkCollisionsE_cfg (e : Engine) : (checkCollisionsE e).cfg = e.cfg := by
  unfold checkCollisionsE
  split
  · rfl
  · exact (powerUpCollisionPhase_cfg _).trans (obstacleCollisionPhase_cfg _)

theorem obstacleSpawnStage_cfg (e : Engine) (env : FrameEnv) :
    (obstacleSpawnStage e env).cfg = e.cfg := by
  unfold obstacleSpawnStage
  split <;> rfl

theorem spawnPowerUpE_cfg (e : Engine) (env : FrameEnv) :
    (spawnPowerUpE e env).cfg = e.cfg := by
  unfold spawnPowerUpE
  dsimp only
  split <;> rfl

theorem powerUpSpawnStage_cfg (e : Engine) (env : FrameEnv) :
    (powerUpSpawnStage e env).cfg = e.cfg := by
  unfold powerUpSpawnStage
  dsimp only
  split
  · split <;> first | rw [spawnPowerUpE_cfg] | rfl
  · rfl

theorem difficultyStage_cfg (e : Engine) : (difficultyStage e).cfg = e.cfg := by
  unfold difficultyStage increaseDifficultyE
  dsimp only
  repeat' split <;> try rfl

theorem scoreStage_cfg (e : Engine) (d : ℚ) : (scoreStage e d).cfg = e.cfg := by
  unfold scoreStage
  dsimp only
  split <;> rfl

theorem update_cfg (e : Engine) (d : ℚ) (env : FrameEnv) :
    (update e d env).cfg = e.cfg := by
  unfold update
  dsimp only
  rw [scoreStage_cfg, difficultyStage_cfg, powerUpSpawnStage_cfg, obstacleSpawnStage_cfg,
    checkCollisionsE_cfg]
  rfl

/-!
Frame-level specification: one update in the playing state keeps the life
counter in bounds and transitions to game over exactly on the last life.
-/

theorem update_spec (e : Engine) (d : ℚ) (env : FrameEnv) (hp : e.state = Mode.playing)
    (h1 : 1 ≤ e.player.lives) (h5 : e.player.lives ≤ 5) :
    (0 ≤ (update e d env).player.lives ∧ (update e d env).player.lives ≤ 5) ∧
    ((update e d env).state = Mode.playing ∨
      ((update e d env).state = Mode.gameOver ∧ e.player.lives = 1)) ∧
    ((update e d env).state = Mode.playing → 1 ≤ (update e d env).player.lives) := by
  unfold update
  dsimp only
  simp only [scoreStage_player, scoreStage_state, difficultyStage_lives,
    difficultyStage_state, powerUpSpawnStage_player, powerUpSpawnStage_state,
    obstacleSpawnStage_player, obstacleSpawnStage_state]
  have hps : (updatePowerUpsE (updateObstaclesE
      (roadStage (playerStage e (min d (1/10))) (min d (1/10)))
      (min d (1/10))) (min d (1/10))).state = Mode.playing := by
    simp only [updatePowerUpsE_state, updateObstaclesE_state, roadStage_state,
      playerStage_state, hp]
  have hpl : (updatePowerUpsE (updateObstaclesE
      (roadStage (playerStage e (min d (1/10))) (min d (1/10)))
      (min d (1/10))) (min d (1/10))).player.lives = e.player.lives := by
    simp only [updatePowerUpsE_player, updateObstaclesE_player, roadStage_player,
      playerStage_lives]
  obtain ⟨hC05, hCs, hCs1, _⟩ :=
    checkCollisionsE_spec _ hps (by rw [hpl]; exact h1) (by rw [hpl]; exact h5)
  refine ⟨hC05, ?_, ?_⟩
  · rcases hCs with h | h
    · exact Or.inl (h.trans hps)
    · exact Or.inr ⟨h.1, by rw [← hpl]; exact h.2⟩
  · intro hplaying
    exact hCs1 (hplaying.trans hps.symm)

/-- Run-level life invariant, together with the bounds on the mutable
starting-lives configuration that feed it on restart. -/
def EngineInv (e : Engine) : Prop :=
  0 ≤ e.player.lives ∧ e.player.lives ≤ 5 ∧
  ((e.state = Mode.playing ∨ e.state = Mode.paused) → 1 ≤ e.player.lives) ∧
  1 ≤ e.cfg.STARTING_LIVES ∧ e.cfg.STARTING_LIVES ≤ 5

theorem EngineInv.transport {e e2 : Engine} (hInv : EngineInv e)
    (hl : e2.player.lives = e.player.lives) (hs : e2.state = e.state)
    (hc : e2.cfg = e.cfg) : EngineInv e2 := by
  obtain ⟨a, b, c, d1, d2⟩ := hInv
  exact ⟨by rw [hl]; exact a, by rw [hl]; exact b,
    by rw [hl, hs]; exact c, by rw [hc]; exact d1, by rw [hc]; exact d2⟩

theorem initEngine_inv (w h : ℚ) (hs : ℤ) : EngineInv (initEngine w h hs) := by
  refine ⟨by norm_num [initEngine, Player.init, GAME_CONFIG],
    by norm_num [initEngine, Player.init, GAME_CONFIG], ?_,
    by norm_num [initEngine, GAME_CONFIG], by norm_num [initEngine, GAME_CONFIG]⟩
  intro hc
  rcases hc with hc | hc <;> simp [initEngine] at hc

theorem gameLoop_spec (e : Engine) (ts : ℚ) (env : FrameEnv) (hInv : EngineInv e) :
    EngineInv (gameLoop e ts env) ∧
    ((gameLoop e ts env).state = Mode.gameOver → e.state = Mode.playing →
      e.player.lives = 1) ∧
    (e.state ≠ Mode.playing → gameLoop e ts env = e) := by
  obtain ⟨h0, h5, hpl, hc1, hc5⟩ := hInv
  unfold gameLoop
  split
  · rename_i hp
    dsimp only
    have h1 : 1 ≤ e.player.lives := hpl (Or.inl hp)
    obtain ⟨⟨u0, u5⟩, us, us1⟩ :=
      update_spec { e with gameTime := ts }
        ((if e.gameTime > 0 then (ts - e.gameTime) / 1000 else 16/1000) *
          ({ e with gameTime := ts } : Engine).timeScale) env hp h1 h5
    refine ⟨⟨u0, u5, ?_, ?_, ?_⟩, ?_, fun hnp => absurd hp hnp⟩
    · intro hps
      rcases hps with hps | hps
      · exact us1 hps
      · rcases us with h | h
        · rw [hps] at h
          exact absurd h (by simp)
        · rw [hps] at h
          exact absurd h.1 (by simp)
    · rw [update_cfg]
      exact hc1
    · rw [update_cfg]
      exact hc5
    · intro hgo _
      rcases us with h | h
      · rw [hgo] at h
        exact absurd h (by simp)
      · exact h.2
  · rename_i hnp
    refine ⟨⟨h0, h5, hpl, hc1, hc5⟩, ?_, fun _ => rfl⟩
    intro _ hp
    exact absurd hp hnp

/-!
Life preservation of the remaining externally triggerable operations.
-/

theorem Player.moveLeft_lives (p : Player) : p.moveLeft.lives = p.lives := by
  unfold Player.moveLeft
  split <;> rfl

theorem Player.moveRight_lives (p : Player) : p.moveRight.lives = p.lives := by
  unfold Player.moveRight
  split <;> rfl

theorem handleInputE_lives (e : Engine) (cmd : InputCmd) :
    (handleInputE e cmd).player.lives = e.player.lives := by
  unfold handleInputE
  split
  · cases cmd
    · exact Player.moveLeft_lives _
    · exact Player.moveRight_lives _
    · rfl
    · rfl
  · rfl

theorem handleInputE_state (e : Engine) (cmd : InputCmd) :
    (handleInputE e cmd).state = e.state := by
  unfold handleInputE
  split
  · cases cmd <;> rfl
  · rfl

theorem handleInputE_cfg (e : Engine) (cmd : InputCmd) :
    (handleInputE e cmd).cfg = e.cfg := by
  unfold handleInputE
  split
  · cases cmd <;> rfl
  · rfl

theorem fireTAction_player (a : TAction) (e : Engine) :
    (fireTAction a e).player = e.player := by
  cases a <;> rfl

theorem fireTAction_state (a : TAction) (e : Engine) :
    (fireTAction a e).state = e.state := by
  cases a <;> rfl

theorem fireTAction_cfg (a : TAction) (e : Engine) :
    (fireTAction a e).cfg = e.cfg := by
  cases a <;> rfl

theorem foldlFire_player (l : List Timeout) (e : Engine) :
    (l.foldl (fun acc t => fireTAction t.action acc) e).player = e.player := by
  induction l generalizing e with
  | nil => rfl
  | cons t l ih => rw [List.foldl_cons, ih, fireTAction_player]

theorem foldlFire_state (l : List Timeout) (e : Engine) :
    (l.foldl (fun acc t => fireTAction t.action acc) e).state = e.state := by
  induction l generalizing e with
  | nil => rfl
  | cons t l ih => rw [List.foldl_cons, ih, fireTAction_state]

theorem foldlFire_cfg (l : List Timeout) (e : Engine) :
    (l.foldl (fun acc t => fireTAction t.action acc) e).cfg = e.cfg := by
  induction l generalizing e with
  | nil => rfl
  | cons t l ih => rw [List.foldl_cons, ih, fireTAction_cfg]

theorem advanceWall_player (e : Engine) (dt : ℚ) :
    (advanceWall e dt).player = e.player := by
  unfold advanceWall
  dsimp only
  rw [foldlFire_player]

theorem advanceWall_state (e : Engine) (dt : ℚ) :
    (advanceWall e dt).state = e.state := by
  unfold advanceWall
  dsimp only
  rw [foldlFire_state]

theorem advanceWall_cfg (e : Engine) (dt : ℚ) :
    (advanceWall e dt).cfg = e.cfg := by
  unfold advanceWall
  dsimp only
  rw [foldlFire_cfg]

theorem stepFn_inv (e : Engine) (s : Step) (hInv : EngineInv e) :
    EngineInv (e.stepFn s) := by
  obtain ⟨h0, h5, hpl, hc1, hc5⟩ := hInv
  cases s with
  | start env =>
    show EngineInv (startGameE e env)
    unfold startGameE
    refine (gameLoop_spec _ 0 env ?_).1
    refine ⟨?_, hc5, fun _ => hc1, hc1, hc5⟩
    show (0:ℤ) ≤ e.cfg.STARTING_LIVES
    omega
  | pause =>
    show EngineInv (if e.state = Mode.playing then pauseGameE e else e)
    split
    · rename_i hp
      exact ⟨h0, h5, fun _ => hpl (Or.inl hp), hc1, hc5⟩
    · exact ⟨h0, h5, hpl, hc1, hc5⟩
  | resume env =>
    show EngineInv (if e.state = Mode.paused then resumeGameE e env else e)
    split
    · rename_i hp
      unfold resumeGameE
      refine (gameLoop_spec _ 0 env ?_).1
      exact ⟨h0, h5, fun _ => hpl (Or.inr hp), hc1, hc5⟩
    · exact ⟨h0, h5, hpl, hc1, hc5⟩
  | frame ts env => exact (gameLoop_spec e ts env ⟨h0, h5, hpl, hc1, hc5⟩).1
  | input cmd =>
    exact EngineInv.transport ⟨h0, h5, hpl, hc1, hc5⟩
      (handleInputE_lives e cmd) (handleInputE_state e cmd) (handleInputE_cfg e cmd)
  | setDifficulty d =>
    show EngineInv (setDifficultyE e d)
    cases d <;> exact ⟨by norm_num [setDifficultyE, DIFFICULTY_PRESETS],
      by norm_num [setDifficultyE, DIFFICULTY_PRESETS],
      fun _ => by norm_num [setDifficultyE, DIFFICULTY_PRESETS],
      by norm_num [setDifficultyE, DIFFICULTY_PRESETS],
      by norm_num [setDifficultyE, DIFFICULTY_PRESETS]⟩
  | wall dt =>
    show EngineInv (advanceWall e dt)
    exact EngineInv.transport ⟨h0, h5, hpl, hc1, hc5⟩
      (by rw [advanceWall_player]) (advanceWall_state e dt) (advanceWall_cfg e dt)

theorem reachable_inv (e : Engine) (h : Reachable e) : EngineInv e := by
  induction h with
  | init w hh hs => exact initEngine_inv w hh hs
  | step h s ih => exact stepFn_inv _ s ih

/-- C5: in every reachable engine state the player lives stay within
[0, 5]; applying the addLife power-up never raises them above 5; taking
damage is a no-op while invincible; a frame that transitions Playing to
GameOver happens exactly on the last life (the life counter reaches 0 in
that frame); and frames in any non-playing state change nothing, so the
GameOver state absorbs further frames and the transition fires exactly
once per run. -/
theorem player_lives_bounds (e : Engine) (h : Reachable e) (ts dur : ℚ)
    (env : FrameEnv) :
    (0 ≤ e.player.lives ∧ e.player.lives ≤ 5) ∧
    (e.player.applyPowerUp .addLife dur).lives ≤ 5 ∧
    (e.player.invincible = true → e.player.takeDamage = (e.player, false)) ∧
    ((gameLoop e ts env).state = Mode.gameOver → e.state = Mode.playing →
      e.player.lives = 1) ∧
    (e.state ≠ Mode.playing → gameLoop e ts env = e) := by
  have hInv := reachable_inv e h
  obtain ⟨_, htrans, hnoop⟩ := gameLoop_spec e ts env hInv
  obtain ⟨h0, h5, _, _, _⟩ := hInv
  refine ⟨⟨h0, h5⟩, ?_, fun hi => Player.takeDamage_invincible _ hi, htrans, hnoop⟩
  show min (e.player.lives + 1) 5 ≤ 5
  exact min_le_right _ _

/-- Concrete frame environment used by witnesses. -/
def demoEnv : FrameEnv :=
  { obstacleLaneRand := 0, obstacleTypeRand := 0, obstacleSpeedRand := 0,
    powerUpRoll := 1, powerUpLaneRand := 0, powerUpTypeRand := 1,
    powerUpResolveRand := 0, wallNow := 0 }

/-- Witness for C5 at the freshly constructed engine. -/
theorem player_lives_bounds_witness :
    Reachable (initEngine 300 600 0) ∧
    ((0 ≤ (initEngine 300 600 0).player.lives ∧ (initEngine 300 600 0).player.lives ≤ 5) ∧
     ((initEngine 300 600 0).player.applyPowerUp .addLife 5000).lives ≤ 5 ∧
     ((initEngine 300 600 0).player.invincible = true →
       (initEngine 300 600 0).player.takeDamage = ((initEngine 300 600 0).player, false)) ∧
     ((gameLoop (initEngine 300 600 0) 16 demoEnv).state = Mode.gameOver →
       (initEngine 300 600 0).state = Mode.playing →
       (initEngine 300 600 0).player.lives = 1) ∧
     ((initEngine 300 600 0).state ≠ Mode.playing →
       gameLoop (initEngine 300 600 0) 16 demoEnv = initEngine 300 600 0)) :=
  ⟨Reachable.init 300 600 0,
   player_lives_bounds (initEngine 300 600 0) (Reachable.init 300 600 0) 16 5000 demoEnv⟩

/-!
Obstacle scoring (claim C9): points are awarded exactly for obstacles
removed by the update loop (flagged for deletion), never by the collision
path.
-/

theorem obstacleCollisionPhase_score (e : Engine) :
    (obstacleCollisionPhase e).score = e.score := by
  unfold obstacleCollisionPhase
  split
  · rfl
  · dsimp only
    split <;> rfl

theorem checkCollisionsE_score (e : Engine) : (checkCollisionsE e).score = e.score := by
  unfold checkCollisionsE
  split
  · rfl
  · exact (powerUpCollisionPhase_score _).trans (obstacleCollisionPhase_score _)

theorem Obstacle.update_points (o : Obstacle) (δ pS gh s : ℚ) :
    (o.update δ pS gh s).points = o.points := rfl

theorem obstaclesLoop_spec (δ pS gh s m : ℚ) (l : List Obstacle) :
    (obstaclesLoop δ pS gh s m l).2 =
      (l.map fun o => if (o.update δ pS gh s).markedForDeletion
        then ⌊o.points * pS * m⌋ else (0 : ℤ)).sum ∧
    (obstaclesLoop δ pS gh s m l).1 =
      (l.map fun o => o.update δ pS gh s).filter (fun o => !o.markedForDeletion) := by
  induction l with
  | nil => exact ⟨rfl, rfl⟩
  | cons o rest ih =>
    unfold obstaclesLoop
    dsimp only
    by_cases hm : (o.update δ pS gh s).markedForDeletion
    · rw [if_pos hm]
      constructor
      · dsimp only
        rw [ih.1]
        simp [hm, add_comm, Obstacle.update_points]
      · dsimp only
        rw [ih.2]
        simp [hm]
    · rw [if_neg hm]
      constructor
      · dsimp only
        rw [ih.1]
        simp [hm]
      · dsimp only
        rw [ih.2]
        simp [hm]

/-- C9: the per-frame obstacle pass awards floor(points × player speed ×
score multiplier) exactly for the obstacles flagged for deletion (which
for an unflagged obstacle happens exactly when its updated y exceeds the
game height) and removes exactly those; the collision path (obstacle hits
and power-up pickups) removes the hit obstacle but never changes the
score. -/
theorem obstacle_scoring (e : Engine) (δ pS gh s m : ℚ) (l : List Obstacle)
    (o : Obstacle) :
    (obstaclesLoop δ pS gh s m l).2 =
      (l.map fun o2 => if (o2.update δ pS gh s).markedForDeletion
        then ⌊o2.points * pS * m⌋ else (0 : ℤ)).sum ∧
    (obstaclesLoop δ pS gh s m l).1 =
      (l.map fun o2 => o2.update δ pS gh s).filter (fun o2 => !o2.markedForDeletion) ∧
    (updateObstaclesE e δ).score = e.score +
      (e.obstacles.map fun o2 =>
        if (o2.update δ e.player.speed e.canvasHeight e.timeScale).markedForDeletion
        then ⌊o2.points * e.player.speed * e.scoreMultiplier⌋ else (0 : ℤ)).sum ∧
    (checkCollisionsE e).score = e.score ∧
    ((o.update δ pS gh s).markedForDeletion = true ↔
      (o.markedForDeletion = true ∨
        o.y + o.speed * pS * BASE_SPEED_FACTOR * δ * s > gh)) := by
  refine ⟨(obstaclesLoop_spec δ pS gh s m l).1, (obstaclesLoop_spec δ pS gh s m l).2,
    ?_, checkCollisionsE_score e, ?_⟩
  · show (updateObstaclesE e δ).score = _
    unfold updateObstaclesE
    dsimp only
    rw [(obstaclesLoop_spec _ _ _ _ _ _).1]
  · unfold Obstacle.update
    dsimp only
    split <;> rename_i hgt <;> simp [hgt]

/-!
Concrete mid-run snapshots used to evaluate the frame pipeline: a player
resting in the center lane of a 300 by 600 canvas, and a single car
obstacle in lane 0 far from the player.
-/

/-- Car obstacle in lane 0 at the top of the screen. -/
def o4 : Obstacle :=
  { x := 25, y := 0, width := 50, height := 80, lane := 0, kind := .car, speed := 1,
    points := 10, hitbox := some ⟨25, 0, 45, 75⟩, markedForDeletion := false }

/-- Player at rest in the center lane. -/
def p4 : Player :=
  { x := 130, y := 510, width := 40, height := 70, laneWidth := 100, gameHeight := 600,
    lane := 1, targetLane := 1, laneChangeSpeed := 10, speed := 1, isAccelerating := false,
    lives := 3, invincible := false, invincibleTime := 0, hasShield := false,
    power := none, powerUpTime := 0, blinkInterval := 200, lastBlinkTime := 0,
    visible := true }

/-- Playing engine one second into a run with slow motion active
(timeScale 1/2) and all spawn timers freshly reset. -/
def e4 : Engine :=
  { cfg := GAME_CONFIG, state := .playing, score := 0, previousScore := 0, highScore := 0,
    gameTime := 1000, lastObstacleTime := 1000, lastSpeedIncreaseTime := 1000,
    lastPowerUpTime := 1000, timeScale := 1/2, scoreMultiplier := 1, distance := 0,
    gameSpeed := 1, roadOffset := 0, difficulty := 1, player := p4, obstacles := [o4],
    powerUps := [], canvasWidth := 300, canvasHeight := 600, pendingTimeouts := [],
    timeSinceLastPowerUp := none, timeSinceLastPowerUpType := none,
    lastPowerUpTypeTime := none }

/-- Same car obstacle further down the screen, used by the pause
snapshot. -/
def o100 : Obstacle :=
  { x := 25, y := 100, width := 50, height := 80, lane := 0, kind := .car, speed := 1,
    points := 10, hitbox := some ⟨25, 100, 45, 75⟩, markedForDeletion := false }

/-- Paused engine one minute into a run (last animation-frame timestamp
60000 ms), score 1000, one obstacle on screen. -/
def pausedE : Engine :=
  { cfg := GAME_CONFIG, state := .paused, score := 1000, previousScore := 1000,
    highScore := 0, gameTime := 60000, lastObstacleTime := 60000,
    lastSpeedIncreaseTime := 60000, lastPowerUpTime := 60000, timeScale := 1,
    scoreMultiplier := 1, distance := 0, gameSpeed := 1, roadOffset := 0,
    difficulty := 1, player := p4, obstacles := [o100], powerUps := [],
    canvasWidth := 300, canvasHeight := 600, pendingTimeouts := [],
    timeSinceLastPowerUp := none, timeSinceLastPowerUpType := none,
    lastPowerUpTypeTime := none }

/-- C1 failing-input evaluation: resuming the paused one-minute run calls
gameLoop(0) without resetting gameTime, so the first post-resume frame
applies deltaTime = (0 − 60000) / 1000 = −60 s — the negated wall-clock
gap, unclamped because Math.min only caps above — instead of a nominal
single-frame step: gameTime jumps to 0, the score drops from 1000 to
1000 + ⌊−60 × 1 × 10⌋ = 400, and the obstacle teleports from y = 100 to
100 − 60 × 150 = −8900.  A nominal 0.016 s step would instead give
y = 102.4 and leave the score at 1000. -/
theorem resume_wallclock_gap_bug :
    (resumeGameE pausedE demoEnv).gameTime = 0 ∧
    (resumeGameE pausedE demoEnv).score = 400 ∧
    ((resumeGameE pausedE demoEnv).obstacles.map Obstacle.y) = [-8900] := by
  refine ⟨?_, ?_, ?_⟩ <;>
    norm_num [resumeGameE, gameLoop, update, playerStage, roadStage, updateObstaclesE,
      obstaclesLoop, Obstacle.update, updatePowerUpsE, checkCollisionsE,
      obstacleCollisionPhase, powerUpCollisionPhase, scanObstacles, scanPowerUps,
      Player.update, Player.updateLanePos, Player.updateInvincibility,
      Player.updatePowerTimer, Player.rect, Obstacle.effHitbox, Obstacle.bounds,
      checkCollision, obstacleSpawnStage, powerUpSpawnStage, difficultyStage,
      increaseDifficultyE, scoreStage, getObstacleSpawnInterval,
      getPowerUpSpawnInterval, BASE_SPEED_FACTOR, SCORE_MULTIPLIER,
      MIN_OBSTACLE_INTERVAL, BASE_OBSTACLE_INTERVAL, POWER_UP_MIN_SPAWN_INTERVAL,
      GAME_CONFIG, pausedE, o100, p4, demoEnv]

/-- C6 failing-input evaluation: the first frame after resuming the paused
one-minute run is a per-frame update executed in the Playing state whose
score delta is ⌊−60 × speed × multiplier × 10⌋ < 0 — the score strictly
decreases while playing. -/
theorem score_decrease_on_resume_bug :
    (resumeGameE pausedE demoEnv).state = Mode.playing ∧
    (resumeGameE pausedE demoEnv).score < pausedE.score := by
  constructor <;>
    norm_num [resumeGameE, gameLoop, update, playerStage, roadStage, updateObstaclesE,
      obstaclesLoop, Obstacle.update, updatePowerUpsE, checkCollisionsE,
      obstacleCollisionPhase, powerUpCollisionPhase, scanObstacles, scanPowerUps,
      Player.update, Player.updateLanePos, Player.updateInvincibility,
      Player.updatePowerTimer, Player.rect, Obstacle.effHitbox, Obstacle.bounds,
      checkCollision, obstacleSpawnStage, powerUpSpawnStage, difficultyStage,
      increaseDifficultyE, scoreStage, getObstacleSpawnInterval,
      getPowerUpSpawnInterval, BASE_SPEED_FACTOR, SCORE_MULTIPLIER,
      MIN_OBSTACLE_INTERVAL, BASE_OBSTACLE_INTERVAL, POWER_UP_MIN_SPAWN_INTERVAL,
      GAME_CONFIG, pausedE, o100, p4, demoEnv]

/-!
Claim C4: delta clamping and time-scale application.
-/

/-- Modelled from the claim wording: the raw frame time is clamped to
0.1 s and multiplied by the time-scale exactly once, and an obstacle
advances by relative speed × playerSpeed × BASE_SPEED_FACTOR × that
delta. -/
def specObstacleAdvance (o : Obstacle) (rawDelta timeScale playerSpeed : ℚ) : ℚ :=
  o.y + o.speed * playerSpeed * BASE_SPEED_FACTOR * (min rawDelta (1/10)) * timeScale

/-- C4 counterexample: at time-scale 1/2 with a raw frame gap of 16 ms,
the code moves the obstacle of e4 to y = 3/5 (the time-scale multiplies
the already scaled and clamped delta a second time inside
Obstacle.update), while the claimed formula — clamp the raw delta, apply
the time-scale once — gives y = 6/5. -/
theorem timescale_applied_twice_counterexample :
    ((gameLoop e4 1016 demoEnv).obstacles.map Obstacle.y) = [3/5] ∧
    specObstacleAdvance o4 ((1016 - 1000) / 1000) (1/2) 1 = 6/5 ∧
    ((3 : ℚ)/5) ≠ 6/5 := by
  refine ⟨?_, ?_, by norm_num⟩
  · norm_num [gameLoop, update, playerStage, roadStage, updateObstaclesE, obstaclesLoop,
      Obstacle.update, updatePowerUpsE, checkCollisionsE, obstacleCollisionPhase,
      powerUpCollisionPhase, scanObstacles, scanPowerUps, Player.update,
      Player.updateLanePos, Player.updateInvincibility, Player.updatePowerTimer,
      Player.rect, Obstacle.effHitbox, Obstacle.bounds, checkCollision,
      obstacleSpawnStage, powerUpSpawnStage, difficultyStage, increaseDifficultyE,
      scoreStage, getObstacleSpawnInterval, getPowerUpSpawnInterval,
      BASE_SPEED_FACTOR, SCORE_MULTIPLIER, MIN_OBSTACLE_INTERVAL,
      BASE_OBSTACLE_INTERVAL, POWER_UP_MIN_SPAWN_INTERVAL, GAME_CONFIG, e4, o4, p4,
      demoEnv]
  · norm_num [specObstacleAdvance, o4, BASE_SPEED_FACTOR]

/-- C4 amended: gameLoop multiplies the raw frame delta by the time-scale
first, update then clamps the scaled delta to 0.1 s (so clamping happens
after scaling, and the cap is not itself scaled), and obstacle motion
multiplies by the time-scale a second time: the obstacle y advance is
relative speed × playerSpeed × BASE_SPEED_FACTOR × min(raw × s, 0.1) × s.
Update is invariant under pre-clamping its delta. -/
theorem timescale_applied_twice_amended (e : Engine) (ts d : ℚ) (env : FrameEnv)
    (o : Obstacle) (pS gh s : ℚ) (hp : e.state = Mode.playing) (hgt : e.gameTime > 0) :
    gameLoop e ts env =
      update { e with gameTime := ts } (((ts - e.gameTime) / 1000) * e.timeScale) env ∧
    update e d env = update e (min d (1/10)) env ∧
    (o.update d pS gh s).y = o.y + o.speed * pS * BASE_SPEED_FACTOR * d * s := by
  refine ⟨?_, ?_, rfl⟩
  · unfold gameLoop
    rw [if_pos hp]
    dsimp only
    have hdt : (if e.gameTime > 0 then (ts - e.gameTime) / 1000 else 16/1000) =
        (ts - e.gameTime) / 1000 := if_pos hgt
    rw [hdt]
  · show update e d env = update e (min d (1/10)) env
    unfold update
    dsimp only
    rw [min_assoc, min_self]

/-- Witness for C4 amended at the e4 snapshot, a frame at timestamp 1016,
and the o4 obstacle with a concrete unclamped delta. -/
theorem timescale_applied_twice_amended_witness :
    (e4.state = Mode.playing ∧ e4.gameTime > 0) ∧
    (gameLoop e4 1016 demoEnv =
      update { e4 with gameTime := 1016 } (((1016 - e4.gameTime) / 1000) * e4.timeScale)
        demoEnv ∧
     update e4 (1/4) demoEnv = update e4 (min (1/4) (1/10)) demoEnv ∧
     (o4.update (1/4) 1 600 (1/2)).y =
       o4.y + o4.speed * 1 * BASE_SPEED_FACTOR * (1/4) * (1/2)) :=
  ⟨⟨rfl, by norm_num [e4]⟩,
   timescale_applied_twice_amended e4 1016 (1/4) demoEnv o4 1 600 (1/2) rfl
     (by norm_num [e4])⟩

/-!
Claim C3: power-up effect expiry.
-/

theorem obstacleCollisionPhase_scoreMultiplier (e : Engine) :
    (obstacleCollisionPhase e).scoreMultiplier = e.scoreMultiplier := by
  unfold obstacleCollisionPhase
  split
  · rfl
  · dsimp only
    split <;> rfl

theorem checkCollisionsE_scoreMultiplier (e : Engine) :
    (checkCollisionsE e).scoreMultiplier = e.scoreMultiplier ∨
    (checkCollisionsE e).scoreMultiplier = 2 := by
  unfold checkCollisionsE
  split
  · exact Or.inl rfl
  · rcases powerUpCollisionPhase_scoreMultiplier (obstacleCollisionPhase e) with h | h
    · exact Or.inl (h.trans (obstacleCollisionPhase_scoreMultiplier e))
    · exact Or.inr h

theorem update_scoreMultiplier (e : Engine) (d : ℚ) (env : FrameEnv) :
    (update e d env).scoreMultiplier = e.scoreMultiplier ∨
    (update e d env).scoreMultiplier = 2 := by
  unfold update
  dsimp only
  simp only [scoreStage_scoreMultiplier, difficultyStage_scoreMultiplier,
    powerUpSpawnStage_scoreMultiplier, obstacleSpawnStage_scoreMultiplier]
  exact checkCollisionsE_scoreMultiplier _

/-- Score-boost power-up object carrying the doubleScore effect. -/
def pu3 : PowerUp :=
  { x := 0, y := 0, width := 30, height := 30, lane := 0, kind := .scoreBoost,
    effect := .doubleScore, duration := 5000, markedForDeletion := false }

/-- C3 counterexample: apply the doubleScore power-up to the e4 snapshot
(slow motion active, timeScale 1/2) — the multiplier becomes 2
immediately and a 5000 ms wall-clock callback is queued; pause
immediately, so zero frames and zero simulated milliseconds elapse; after
5000 wall-clock milliseconds the deferred callback still fires and resets
the multiplier to 1 while the game is paused (gameTime untouched).  The
expiry therefore is driven by an independent deferred callback that
pausing does not cancel, not by the per-frame simulated-time countdowns,
and it ignores the time-scale entirely. -/
theorem deferred_expiry_counterexample :
    (applyPowerUpE e4 pu3).scoreMultiplier = 2 ∧
    (pauseGameE (applyPowerUpE e4 pu3)).state = Mode.paused ∧
    (pauseGameE (applyPowerUpE e4 pu3)).pendingTimeouts =
      [⟨5000, .resetScoreMultiplier⟩] ∧
    (advanceWall (pauseGameE (applyPowerUpE e4 pu3)) 5000).state = Mode.paused ∧
    (advanceWall (pauseGameE (applyPowerUpE e4 pu3)) 5000).scoreMultiplier = 1 ∧
    (advanceWall (pauseGameE (applyPowerUpE e4 pu3)) 5000).gameTime = e4.gameTime := by
  refine ⟨rfl, rfl, rfl, ?_, ?_, ?_⟩ <;>
    norm_num [advanceWall, pauseGameE, applyPowerUpE, fireTAction, e4, pu3,
      Player.applyPowerUp]

/-- C3 amended: on pickup of a doubleScore power-up the multiplier becomes
2 immediately and the reversion is scheduled as an independent wall-clock
setTimeout of the power-up duration, pushed on the pending queue; pausing
leaves the queue untouched (nothing is ever cancelled), and no per-frame
update path ever reverts the multiplier to 1 — a frame either leaves it
unchanged or sets it to 2 on a new pickup — so the only reversion path is
the wall-clock callback, which fires after duration wall-clock
milliseconds regardless of time-scale, pause or run end. -/
theorem deferred_expiry_amended (e : Engine) (pu : PowerUp) (d : ℚ) (env : FrameEnv)
    (hpu : pu.effect = Effect.doubleScore) :
    (applyPowerUpE e pu).scoreMultiplier = 2 ∧
    (applyPowerUpE e pu).pendingTimeouts =
      ⟨pu.duration, .resetScoreMultiplier⟩ :: e.pendingTimeouts ∧
    (pauseGameE e).pendingTimeouts = e.pendingTimeouts ∧
    ((update e d env).scoreMultiplier = e.scoreMultiplier ∨
      (update e d env).scoreMultiplier = 2) := by
  refine ⟨?_, ?_, rfl, update_scoreMultiplier e d env⟩ <;>
    simp [applyPowerUpE, hpu]

/-- Witness for C3 amended at the e4 snapshot and the scoreBoost
power-up. -/
theorem deferred_expiry_amended_witness :
    pu3.effect = Effect.doubleScore ∧
    ((applyPowerUpE e4 pu3).scoreMultiplier = 2 ∧
     (applyPowerUpE e4 pu3).pendingTimeouts =
       ⟨pu3.duration, .resetScoreMultiplier⟩ :: e4.pendingTimeouts ∧
     (pauseGameE e4).pendingTimeouts = e4.pendingTimeouts ∧
     ((update e4 (1/60) demoEnv).scoreMultiplier = e4.scoreMultiplier ∨
       (update e4 (1/60) demoEnv).scoreMultiplier = 2)) :=
  ⟨rfl, deferred_expiry_amended e4 pu3 (1/60) demoEnv rfl⟩

end HighwayRacer
